import Mathlib

/-!
# hipFFT test client: `clients/hipfft_params.h`

A shallow embedding of the parameter object `hipfft_params` that the hipFFT
test client uses to drive the vendor library, together with theorems about
its result-code translation, its choice of plan-creation API, its struct
setup, its callback registration and its execution wrapper.

Conventions of the embedding.

* C enumerations whose variables may hold any integer (`hipfftResult_t`,
  `hipfftType`, `fft_transform_type`, the `int` returned by
  `get_create_type`) are `Int`, with the enumerators as constants.
* `size_t` values are `Nat`; the conversions to `long long` and to `int`
  wrap modulo `2^64` and `2^32`.
* Reading or writing a `std::vector` out of range, `back()` of an empty
  vector and integer division by zero have no defined behaviour in C++;
  the embedding gives them the outcome `Res.undefined`.
* A C++ exception is the outcome `Res.threw msg s`, with `s` the state of
  the object when it was thrown.
* Vendor entry points are calls to an arbitrary oracle `Vendor`, which sees
  the calls made so far; each call is appended to the `trace` of the world.
-/

namespace HipFFT

/-! ## Result codes -/

/-- The vendor result code `hipfftResult_t`, a C enumeration: any integer. -/
abbrev hipfftResult_t := Int

/-! The enumerators of `hipfftResult_t`, with the values that
`hipfftResult_string` (lines 58-97) prints for them. -/

def HIPFFT_SUCCESS : hipfftResult_t := 0
def HIPFFT_INVALID_PLAN : hipfftResult_t := 1
def HIPFFT_ALLOC_FAILED : hipfftResult_t := 2
def HIPFFT_INVALID_TYPE : hipfftResult_t := 3
def HIPFFT_INVALID_VALUE : hipfftResult_t := 4
def HIPFFT_INTERNAL_ERROR : hipfftResult_t := 5
def HIPFFT_EXEC_FAILED : hipfftResult_t := 6
def HIPFFT_SETUP_FAILED : hipfftResult_t := 7
def HIPFFT_INVALID_SIZE : hipfftResult_t := 8
def HIPFFT_UNALIGNED_DATA : hipfftResult_t := 9
def HIPFFT_INCOMPLETE_PARAMETER_LIST : hipfftResult_t := 10
def HIPFFT_INVALID_DEVICE : hipfftResult_t := 11
def HIPFFT_PARSE_ERROR : hipfftResult_t := 12
def HIPFFT_NO_WORKSPACE : hipfftResult_t := 13
def HIPFFT_NOT_IMPLEMENTED : hipfftResult_t := 14
def HIPFFT_NOT_SUPPORTED : hipfftResult_t := 16

/-- The uniform status enumeration `fft_status` of the base header
`fft_params.h`; only its enumerators matter here, not their values. -/
inductive fft_status where
  | fft_status_success
  | fft_status_failure
  | fft_status_invalid_arg_value
  | fft_status_invalid_dimensions
  | fft_status_invalid_array_type
  | fft_status_invalid_strides
  | fft_status_invalid_distance
  | fft_status_invalid_offset
  | fft_status_invalid_work_buffer
  deriving DecidableEq, Repr

open fft_status

/-- The function `fft_status_from_hipfftparams` (lines 28-56): the `switch`
over the result code, case labels in source order, `default` last. -/
def fft_status_from_hipfftparams (val : hipfftResult_t) : fft_status :=
  if val = HIPFFT_SUCCESS then fft_status_success
  else if val = HIPFFT_INVALID_PLAN ∨ val = HIPFFT_ALLOC_FAILED then fft_status_failure
  else if val = HIPFFT_INVALID_TYPE ∨ val = HIPFFT_INVALID_VALUE ∨ val = HIPFFT_INVALID_SIZE
      ∨ val = HIPFFT_INCOMPLETE_PARAMETER_LIST ∨ val = HIPFFT_INVALID_DEVICE
      ∨ val = HIPFFT_NOT_IMPLEMENTED ∨ val = HIPFFT_NOT_SUPPORTED then
    fft_status_invalid_arg_value
  else if val = HIPFFT_INTERNAL_ERROR ∨ val = HIPFFT_EXEC_FAILED ∨ val = HIPFFT_SETUP_FAILED
      ∨ val = HIPFFT_UNALIGNED_DATA ∨ val = HIPFFT_PARSE_ERROR then fft_status_failure
  else if val = HIPFFT_NO_WORKSPACE then fft_status_invalid_work_buffer
  else fft_status_failure

/-- The table of the specification for result codes, written from its
words: success, the seven argument errors, the missing work buffer, and
failure for every other integer. -/
def status_table (val : hipfftResult_t) : fft_status :=
  if val = HIPFFT_SUCCESS then fft_status_success
  else if val ∈ [HIPFFT_INVALID_TYPE, HIPFFT_INVALID_VALUE, HIPFFT_INVALID_SIZE,
      HIPFFT_INCOMPLETE_PARAMETER_LIST, HIPFFT_INVALID_DEVICE, HIPFFT_NOT_IMPLEMENTED,
      HIPFFT_NOT_SUPPORTED] then fft_status_invalid_arg_value
  else if val = HIPFFT_NO_WORKSPACE then fft_status_invalid_work_buffer
  else fft_status_failure

/-! ## Vendor and base-class types -/

/-- The vendor transform type `hipfftType`, a C enumeration: the field can
hold any integer, the six enumerators are the constants below. -/
abbrev hipfftType := Int

/-! The enumerator values of `hipfftType` and the two direction constants
are declared in the header `hipfft.h`, which is not part of this source
tree. The theorems use only that the six types are distinct. -/

/-- Modelled from the spec: the real-to-complex type of `hipfft.h`. -/
def HIPFFT_R2C : hipfftType := 0x2a

/-- Modelled from the spec: the complex-to-real type of `hipfft.h`. -/
def HIPFFT_C2R : hipfftType := 0x2c

/-- Modelled from the spec: the complex-to-complex type of `hipfft.h`. -/
def HIPFFT_C2C : hipfftType := 0x29

/-- Modelled from the spec: the double real-to-complex type of `hipfft.h`. -/
def HIPFFT_D2Z : hipfftType := 0x6a

/-- Modelled from the spec: the double complex-to-real type of `hipfft.h`. -/
def HIPFFT_Z2D : hipfftType := 0x6c

/-- Modelled from the spec: the double complex-to-complex type of `hipfft.h`. -/
def HIPFFT_Z2Z : hipfftType := 0x69

/-- Modelled from the spec: the forward direction of `hipfft.h`. -/
def HIPFFT_FORWARD : Int := -1

/-- Modelled from the spec: the backward direction of `hipfft.h`. -/
def HIPFFT_BACKWARD : Int := 1

/-- The callback kinds `hipfftXtCallbackType` passed to `hipfftXtSetCallback`. -/
inductive hipfftXtCallbackType where
  | HIPFFT_CB_LD_COMPLEX
  | HIPFFT_CB_LD_COMPLEX_DOUBLE
  | HIPFFT_CB_LD_REAL
  | HIPFFT_CB_LD_REAL_DOUBLE
  | HIPFFT_CB_ST_COMPLEX
  | HIPFFT_CB_ST_COMPLEX_DOUBLE
  | HIPFFT_CB_ST_REAL
  | HIPFFT_CB_ST_REAL_DOUBLE
  deriving DecidableEq, Repr

open hipfftXtCallbackType

/-- The precision enumeration of the base header; `setup_structs` only
tests it for equality with `fft_precision_single`. -/
inductive fft_precision where
  | fft_precision_half
  | fft_precision_single
  | fft_precision_double
  deriving DecidableEq, Repr

open fft_precision

/-- The placement enumeration of the base header. -/
inductive fft_result_placement where
  | fft_placement_inplace
  | fft_placement_notinplace
  deriving DecidableEq, Repr

open fft_result_placement

/-! The transform type of the base class is an unscoped enumeration that
`setup_structs` switches over with the labels 0, 1, 2, 3; `is_contiguous`
compares it with the two real enumerators, the labels 2 and 3. -/

def fft_transform_type_complex_forward : Int := 0
def fft_transform_type_complex_inverse : Int := 1
def fft_transform_type_real_forward : Int := 2
def fft_transform_type_real_inverse : Int := 3

/-- A `double`, as far as comparing it with a constant goes: not-a-number,
an infinity, or a finite value. -/
inductive Double where
  | nan
  | inf (negative : Bool)
  | finite (q : ℚ)
  deriving DecidableEq

/-- The constant `1.0`. -/
def Double.one : Double := Double.finite 1

/-- The comparison `a == b` on doubles: false as soon as one side is not a number. -/
def Double.eq : Double → Double → Bool
  | Double.nan, _ => false
  | _, Double.nan => false
  | a, b => decide (a = b)

/-- The comparison `a != b` on doubles: the negation of `a == b`. -/
def Double.ne (a b : Double) : Bool := !(Double.eq a b)

/-- A plan handle: a pointer for the rocFFT backend, an `int` for cuFFT. -/
abbrev hipfftHandle := Int

/-- A device or host address. -/
abbrev Ptr := Nat

/-- Conversion of an integer value to `long long` (64 bits, two's complement). -/
def toLL (n : Int) : Int := (n + 2 ^ 63) % 2 ^ 64 - 2 ^ 63

/-- Conversion of an integer value to `int` (32 bits, two's complement). -/
def toInt32 (n : Int) : Int := (n + 2 ^ 31) % 2 ^ 32 - 2 ^ 31

/-- The call `v.resize(n)` of `std::vector`: keep the first `n` entries,
value-initialise the new ones. -/
def resize (v : List Int) (n : Nat) : List Int :=
  v.take n ++ List.replicate (n - v.length) 0

/-- The assignment `v[i] = x`: defined only for `i` in range. -/
def setAt (v : List Int) (i : Nat) (x : Int) : Option (List Int) :=
  if i < v.length then some (v.set i x) else none

/-- Division of two `size_t` values: not defined for a zero divisor. -/
def udiv (a b : Nat) : Option Nat :=
  if b = 0 then none else some (a / b)

/-- The fields of the base class `fft_params` that this file reads or writes. -/
structure fft_params where
  length : List Nat
  istride : List Nat
  ostride : List Nat
  nbatch : Nat
  precision : fft_precision
  transform_type : Int
  placement : fft_result_placement
  idist : Nat
  odist : Nat
  scale_factor : Double
  run_callbacks : Bool
  workbuffersize : Nat

/-- The class `hipfft_params` (lines 99-120). -/
structure hipfft_params extends fft_params where
  plan : hipfftHandle
  hipfft_transform_type : hipfftType
  direction : Int
  int_length : List Int
  int_inembed : List Int
  int_onembed : List Int
  ll_length : List Int
  ll_inembed : List Int
  ll_onembed : List Int

/-- Modelled from the spec: `dim()` belongs to the base class `fft_params`,
whose header is not part of this source tree; it is the number of
dimensions of the transform, that is the number of entries of `length`. -/
def dim (p : fft_params) : Nat := p.length.length

/-- The members of the base class, the standard hash and the platform
constant that this file uses and does not define. They are pure functions
of the base fields. -/
structure fft_base where
  compute_stride : List Nat → List Nat → Bool → List Nat
  ilength : fft_params → List Nat
  olength : fft_params → List Nat
  compute_idist : fft_params → Nat
  compute_odist : fft_params → Nat
  token : fft_params → String
  hash : String → Nat
  vram_footprint : fft_params → Nat
  INVALID_PLAN_HANDLE : hipfftHandle

/-- Outcome of a member function over a state `σ`: a returned value, a C++
exception with its message, or no defined behaviour. -/
inductive Res (σ : Type) (α : Type) where
  | ret (a : α) (s : σ)
  | threw (msg : String) (s : σ)
  | undefined

/-! ## `setup_structs` (lines 158-218) -/

/-- The first `switch` of `setup_structs`: the vendor transform type and the
direction for the transform types 0 to 3, `none` for the `default` label. -/
def select_type (transform_type : Int) (precision : fft_precision) : Option (hipfftType × Int) :=
  if transform_type = 0 then
    some (if precision = fft_precision_single then HIPFFT_C2C else HIPFFT_Z2Z, HIPFFT_FORWARD)
  else if transform_type = 1 then
    some (if precision = fft_precision_single then HIPFFT_C2C else HIPFFT_Z2Z, HIPFFT_BACKWARD)
  else if transform_type = 2 then
    some (if precision = fft_precision_single then HIPFFT_R2C else HIPFFT_D2Z, HIPFFT_FORWARD)
  else if transform_type = 3 then
    some (if precision = fft_precision_single then HIPFFT_C2R else HIPFFT_Z2D, HIPFFT_BACKWARD)
  else none

/-- The six `resize(dim())` calls. -/
def resize_all (p : hipfft_params) : hipfft_params :=
  { p with
    int_length := resize p.int_length (dim p.tofft_params)
    int_inembed := resize p.int_inembed (dim p.tofft_params)
    int_onembed := resize p.int_onembed (dim p.tofft_params)
    ll_length := resize p.ll_length (dim p.tofft_params)
    ll_inembed := resize p.ll_inembed (dim p.tofft_params)
    ll_onembed := resize p.ll_onembed (dim p.tofft_params) }

/-- The two assignments under `case 3` of the second `switch`. -/
def embed_case3 (p : hipfft_params) : Option hipfft_params := do
  let i1 ← p.istride[1]?
  let i2 ← p.istride[2]?
  let qi ← udiv i1 i2
  let li ← setAt p.ll_inembed 2 (toLL (Int.ofNat qi))
  let o1 ← p.ostride[1]?
  let o2 ← p.ostride[2]?
  let qo ← udiv o1 o2
  let lo ← setAt p.ll_onembed 2 (toLL (Int.ofNat qo))
  pure { p with ll_inembed := li, ll_onembed := lo }

/-- The two assignments under `case 2`. -/
def embed_case2 (p : hipfft_params) : Option hipfft_params := do
  let i0 ← p.istride[0]?
  let i1 ← p.istride[1]?
  let qi ← udiv i0 i1
  let li ← setAt p.ll_inembed 1 (toLL (Int.ofNat qi))
  let o0 ← p.ostride[0]?
  let o1 ← p.ostride[1]?
  let qo ← udiv o0 o1
  let lo ← setAt p.ll_onembed 1 (toLL (Int.ofNat qo))
  pure { p with ll_inembed := li, ll_onembed := lo }

/-- The two assignments under `case 1`; they are reached only for a
dimension from 1 to 3, so that `dim() - 1` does not wrap in `size_t`. -/
def embed_case1 (p : hipfft_params) : Option hipfft_params := do
  let si ← p.istride[dim p.tofft_params - 1]?
  let li ← setAt p.ll_inembed 0 (toLL (Int.ofNat si))
  let so ← p.ostride[dim p.tofft_params - 1]?
  let lo ← setAt p.ll_onembed 0 (toLL (Int.ofNat so))
  pure { p with ll_inembed := li, ll_onembed := lo }

/-- The second `switch` of `setup_structs`, with its fall-through from 3 to
2 to 1: the outer `none` is the `default` label, the inner `none` an
undefined read, write or division. -/
def embed_switch (p : hipfft_params) : Option (Option hipfft_params) :=
  if dim p.tofft_params = 3 then some (embed_case3 p >>= embed_case2 >>= embed_case1)
  else if dim p.tofft_params = 2 then some (embed_case2 p >>= embed_case1)
  else if dim p.tofft_params = 1 then some (embed_case1 p)
  else none

/-- The body of the copy loop for index `i`. -/
def copy_step (p : hipfft_params) (i : Nat) : Option hipfft_params := do
  let len ← p.length[i]?
  let ll ← setAt p.ll_length i (toLL (Int.ofNat len))
  let il ← setAt p.int_length i (toInt32 (Int.ofNat len))
  let ie ← p.ll_inembed[i]?
  let ii ← setAt p.int_inembed i (toInt32 ie)
  let oe ← p.ll_onembed[i]?
  let io ← setAt p.int_onembed i (toInt32 oe)
  pure { p with ll_length := ll, int_length := il, int_inembed := ii, int_onembed := io }

/-- The loop `for(size_t i = 0; i < dim(); ++i)`. -/
def copy_loop (p : hipfft_params) : Option hipfft_params :=
  (List.range (dim p.tofft_params)).foldlM copy_step p

/-- The member `setup_structs`. -/
def setup_structs (p : hipfft_params) : Res hipfft_params fft_status :=
  match select_type p.transform_type p.precision with
  | none => Res.threw "Invalid transform type" p
  | some (t, d) =>
    let p1 := resize_all { p with hipfft_transform_type := t, direction := d }
    match embed_switch p1 with
    | none => Res.threw "Invalid dimension" p1
    | some none => Res.undefined
    | some (some p2) =>
      match copy_loop p2 with
      | none => Res.undefined
      | some p3 => Res.ret (fft_status_from_hipfftparams HIPFFT_SUCCESS) p3

/-! ## The vendor library -/

/-- A call into the vendor library with the values of its arguments. An
argument passed by address (`&plan`, `&workbuffersize`) carries the value
stored there before the call; arrays passed with `data()` carry their
entries. -/
inductive VendorCall where
  | hipfftPlan1d (plan : hipfftHandle) (nx : Int) (type : hipfftType) (batch : Int)
  | hipfftPlan2d (plan : hipfftHandle) (nx ny : Int) (type : hipfftType)
  | hipfftPlan3d (plan : hipfftHandle) (nx ny nz : Int) (type : hipfftType)
  | hipfftPlanMany (plan : hipfftHandle) (rank : Int) (n inembed : List Int)
      (istride idist : Int) (onembed : List Int) (ostride odist : Int)
      (type : hipfftType) (batch : Int)
  | hipfftCreate (plan : hipfftHandle)
  | hipfftExtPlanScaleFactor (plan : hipfftHandle) (scalefactor : Double)
  | hipfftMakePlan1d (plan : hipfftHandle) (nx : Int) (type : hipfftType) (batch : Int)
      (workSize : Nat)
  | hipfftMakePlan2d (plan : hipfftHandle) (nx ny : Int) (type : hipfftType) (workSize : Nat)
  | hipfftMakePlan3d (plan : hipfftHandle) (nx ny nz : Int) (type : hipfftType)
      (workSize : Nat)
  | hipfftMakePlanMany (plan : hipfftHandle) (rank : Int) (n inembed : List Int)
      (istride idist : Int) (onembed : List Int) (ostride odist : Int)
      (type : hipfftType) (batch : Int) (workSize : Nat)
  | hipfftMakePlanMany64 (plan : hipfftHandle) (rank : Int) (n inembed : List Int)
      (istride idist : Int) (onembed : List Int) (ostride odist : Int)
      (type : hipfftType) (batch : Int) (workSize : Nat)
  | hipfftXtSetCallback (plan : hipfftHandle) (callbacks : Ptr)
      (cbtype : hipfftXtCallbackType) (callerInfo : Ptr)
  | hipfftExecR2C (plan : hipfftHandle) (idata odata : Ptr)
  | hipfftExecD2Z (plan : hipfftHandle) (idata odata : Ptr)
  | hipfftExecC2R (plan : hipfftHandle) (idata odata : Ptr)
  | hipfftExecZ2D (plan : hipfftHandle) (idata odata : Ptr)
  | hipfftExecC2C (plan : hipfftHandle) (idata odata : Ptr) (direction : Int)
  | hipfftExecZ2Z (plan : hipfftHandle) (idata odata : Ptr) (direction : Int)
  | hipfftDestroy (plan : hipfftHandle)
  deriving DecidableEq

/-- What a vendor call gives back: its result code and the values it leaves
in the plan handle and in the work-buffer size when these are passed by
address. -/
structure Reply where
  code : hipfftResult_t
  plan : hipfftHandle
  workSize : Nat

/-- The vendor library: any function of the calls made so far and of the
present call. -/
abbrev Vendor := List VendorCall → VendorCall → Reply

/-- The object together with what it has done to the outside: the vendor
calls made and the lines written to `std::cerr`. -/
structure World where
  obj : hipfft_params
  trace : List VendorCall
  cerr : List String

/-- Make the vendor call `c`: ask the oracle and record the call. -/
def callVendor (V : Vendor) (c : VendorCall) (w : World) : Reply × World :=
  (V w.trace c, { w with trace := w.trace ++ [c] })

/-- A vendor call that writes the plan handle through `&plan`. -/
def callSetPlan (V : Vendor) (c : VendorCall) (w : World) : hipfftResult_t × World :=
  let r := callVendor V c w
  (r.1.code, { r.2 with obj := { r.2.obj with plan := r.1.plan } })

/-- A vendor call that writes the work size through `&workbuffersize`. -/
def callSetWork (V : Vendor) (c : VendorCall) (w : World) : hipfftResult_t × World :=
  let r := callVendor V c w
  (r.1.code, { r.2 with obj := { r.2.obj with workbuffersize := r.1.workSize } })

/-- A vendor call without output arguments. -/
def callPlain (V : Vendor) (c : VendorCall) (w : World) : hipfftResult_t × World :=
  let r := callVendor V c w
  (r.1.code, r.2)

/-- Return the pair of a result and a world. -/
def retPair {α : Type} (r : α × World) : Res World α := Res.ret r.1 r.2

/-! ## Choice of the plan-creation API (lines 408-477) -/

/-- The member `is_contiguous`, over the absent base members. -/
def is_contiguous (B : fft_base) (p : fft_params) : Bool :=
  let contiguous_istride := B.compute_stride (B.ilength p) []
    (p.placement = fft_placement_inplace ∧ p.transform_type = fft_transform_type_real_forward)
  let contiguous_ostride := B.compute_stride (B.olength p) []
    (p.placement = fft_placement_inplace ∧ p.transform_type = fft_transform_type_real_inverse)
  if p.istride ≠ contiguous_istride ∨ p.ostride ≠ contiguous_ostride then false
  else decide (B.compute_idist p = p.idist ∧ B.compute_odist p = p.odist)

/-- The enumeration `PlanCreateAPI`. -/
inductive PlanCreateAPI where
  | PLAN_Nd
  | PLAN_MANY
  | CREATE_MAKE_PLAN_Nd
  | CREATE_MAKE_PLAN_MANY
  | CREATE_MAKE_PLAN_MANY64
  deriving DecidableEq, Repr

open PlanCreateAPI

/-- The integer value of an enumerator of `PlanCreateAPI`, numbered from 0
in declaration order. -/
def PlanCreateAPI.toInt : PlanCreateAPI → Int
  | PLAN_Nd => 0
  | PLAN_MANY => 1
  | CREATE_MAKE_PLAN_Nd => 2
  | CREATE_MAKE_PLAN_MANY => 3
  | CREATE_MAKE_PLAN_MANY64 => 4

/-- The vector `allowed_apis` that `get_create_type` builds, in push order. -/
def allowed_apis (B : fft_base) (p : fft_params) : List PlanCreateAPI :=
  let contiguous := is_contiguous B p
  let batched := decide (p.nbatch > 1)
  let a0 : List PlanCreateAPI := [CREATE_MAKE_PLAN_MANY, CREATE_MAKE_PLAN_MANY64]
  let a1 := if Double.eq p.scale_factor Double.one then a0 ++ [PLAN_MANY] else a0
  if contiguous && (!batched || decide (dim p = 1)) then
    let a2 := if Double.eq p.scale_factor Double.one then a1 ++ [PLAN_Nd] else a1
    a2 ++ [CREATE_MAKE_PLAN_Nd]
  else a1

/-- The member `get_create_type`: the entry of `allowed_apis` at the hash
of the token modulo the size, as an `int`; `none` when the remainder or the
read is not defined. -/
def get_create_type (B : fft_base) (p : fft_params) : Option Int :=
  let apis := allowed_apis B p
  if apis.length = 0 then none
  else (apis[B.hash (B.token p) % apis.length]?).map PlanCreateAPI.toInt

/-! ## Plan creation (lines 220-262 and 479-590) -/

/-- Sequencing of two outcomes: continue with the returned value and state. -/
def Res.andThen {σ α β : Type} (r : Res σ α) (f : α → σ → Res σ β) : Res σ β :=
  match r with
  | Res.ret a s => f a s
  | Res.threw msg s => Res.threw msg s
  | Res.undefined => Res.undefined

/-- An outcome of a member that touches only the object, seen in the world `w`. -/
def Res.inWorld {α : Type} (w : World) (r : Res hipfft_params α) : Res World α :=
  match r with
  | Res.ret a o => Res.ret a { w with obj := o }
  | Res.threw msg o => Res.threw msg { w with obj := o }
  | Res.undefined => Res.undefined

/-- The member `create_plan_Nd`: `hipfftPlan1d`, `2d` or `3d` by dimension. -/
def create_plan_Nd (V : Vendor) (w : World) : Res World hipfftResult_t :=
  let p := w.obj
  if dim p.tofft_params = 1 then
    match p.int_length[0]? with
    | some n0 =>
      retPair (callSetPlan V
        (VendorCall.hipfftPlan1d p.plan n0 p.hipfft_transform_type (toInt32 (Int.ofNat p.nbatch))) w)
    | none => Res.undefined
  else if dim p.tofft_params = 2 then
    match p.int_length[0]?, p.int_length[1]? with
    | some n0, some n1 =>
      retPair (callSetPlan V (VendorCall.hipfftPlan2d p.plan n0 n1 p.hipfft_transform_type) w)
    | _, _ => Res.undefined
  else if dim p.tofft_params = 3 then
    match p.int_length[0]?, p.int_length[1]?, p.int_length[2]? with
    | some n0, some n1, some n2 =>
      retPair (callSetPlan V (VendorCall.hipfftPlan3d p.plan n0 n1 n2 p.hipfft_transform_type) w)
    | _, _, _ => Res.undefined
  else Res.threw "invalid dim" w

/-- The member `create_plan_many`: `hipfftPlanMany`. -/
def create_plan_many (V : Vendor) (w : World) : Res World hipfftResult_t :=
  let p := w.obj
  match p.istride.getLast?, p.ostride.getLast? with
  | some si, some so =>
    retPair (callSetPlan V
      (VendorCall.hipfftPlanMany p.plan (toInt32 (Int.ofNat (dim p.tofft_params)))
        p.int_length p.int_inembed (toInt32 (Int.ofNat si)) (toInt32 (Int.ofNat p.idist))
        p.int_onembed (toInt32 (Int.ofNat so)) (toInt32 (Int.ofNat p.odist))
        p.hipfft_transform_type (toInt32 (Int.ofNat p.nbatch))) w)
  | _, _ => Res.undefined

/-- The member `create_with_scale_factor`: `hipfftCreate`, then
`hipfftExtPlanScaleFactor` when the scale factor differs from `1.0`. -/
def create_with_scale_factor (V : Vendor) (w : World) : Res World hipfftResult_t :=
  let r := callSetPlan V (VendorCall.hipfftCreate w.obj.plan) w
  if r.1 ≠ HIPFFT_SUCCESS then Res.ret r.1 r.2
  else if Double.ne r.2.obj.scale_factor Double.one then
    let r2 := callPlain V
      (VendorCall.hipfftExtPlanScaleFactor r.2.obj.plan r.2.obj.scale_factor) r.2
    if r2.1 ≠ HIPFFT_SUCCESS then Res.ret r2.1 r2.2
    else Res.ret r2.1 r2.2
  else Res.ret r.1 r.2

/-- The member `create_make_plan_Nd`: `hipfftMakePlan1d`, `2d` or `3d` after
`create_with_scale_factor`. -/
def create_make_plan_Nd (V : Vendor) (w : World) : Res World hipfftResult_t :=
  (create_with_scale_factor V w).andThen fun code w1 =>
    if code ≠ HIPFFT_SUCCESS then Res.ret code w1
    else
      let p := w1.obj
      if dim p.tofft_params = 1 then
        match p.int_length[0]? with
        | some n0 =>
          retPair (callSetWork V
            (VendorCall.hipfftMakePlan1d p.plan n0 p.hipfft_transform_type
              (toInt32 (Int.ofNat p.nbatch)) p.workbuffersize) w1)
        | none => Res.undefined
      else if dim p.tofft_params = 2 then
        match p.int_length[0]?, p.int_length[1]? with
        | some n0, some n1 =>
          retPair (callSetWork V
            (VendorCall.hipfftMakePlan2d p.plan n0 n1 p.hipfft_transform_type p.workbuffersize) w1)
        | _, _ => Res.undefined
      else if dim p.tofft_params = 3 then
        match p.int_length[0]?, p.int_length[1]?, p.int_length[2]? with
        | some n0, some n1, some n2 =>
          retPair (callSetWork V
            (VendorCall.hipfftMakePlan3d p.plan n0 n1 n2 p.hipfft_transform_type
              p.workbuffersize) w1)
        | _, _, _ => Res.undefined
      else Res.threw "invalid dim" w1

/-- The member `create_make_plan_many`: `hipfftMakePlanMany` after
`create_with_scale_factor`. -/
def create_make_plan_many (V : Vendor) (w : World) : Res World hipfftResult_t :=
  (create_with_scale_factor V w).andThen fun code w1 =>
    if code ≠ HIPFFT_SUCCESS then Res.ret code w1
    else
      let p := w1.obj
      match p.istride.getLast?, p.ostride.getLast? with
      | some si, some so =>
        retPair (callSetWork V
          (VendorCall.hipfftMakePlanMany p.plan (toInt32 (Int.ofNat (dim p.tofft_params)))
            p.int_length p.int_inembed (toInt32 (Int.ofNat si)) (toInt32 (Int.ofNat p.idist))
            p.int_onembed (toInt32 (Int.ofNat so)) (toInt32 (Int.ofNat p.odist))
            p.hipfft_transform_type (toInt32 (Int.ofNat p.nbatch)) p.workbuffersize) w1)
      | _, _ => Res.undefined

/-- The member `create_make_plan_many64`: `hipfftMakePlanMany64` after
`create_with_scale_factor`, on the `long long` arrays. -/
def create_make_plan_many64 (V : Vendor) (w : World) : Res World hipfftResult_t :=
  (create_with_scale_factor V w).andThen fun code w1 =>
    if code ≠ HIPFFT_SUCCESS then Res.ret code w1
    else
      let p := w1.obj
      match p.istride.getLast?, p.ostride.getLast? with
      | some si, some so =>
        retPair (callSetWork V
          (VendorCall.hipfftMakePlanMany64 p.plan (toInt32 (Int.ofNat (dim p.tofft_params)))
            p.ll_length p.ll_inembed (toLL (Int.ofNat si)) (toLL (Int.ofNat p.idist))
            p.ll_onembed (toLL (Int.ofNat so)) (toLL (Int.ofNat p.odist))
            p.hipfft_transform_type (toLL (Int.ofNat p.nbatch)) p.workbuffersize) w1)
      | _, _ => Res.undefined

/-- The five creation routines, by the enumerator that selects them. -/
def creation_routine (api : PlanCreateAPI) (V : Vendor) (w : World) : Res World hipfftResult_t :=
  match api with
  | PLAN_Nd => create_plan_Nd V w
  | PLAN_MANY => create_plan_many V w
  | CREATE_MAKE_PLAN_Nd => create_make_plan_Nd V w
  | CREATE_MAKE_PLAN_MANY => create_make_plan_many V w
  | CREATE_MAKE_PLAN_MANY64 => create_make_plan_many64 V w

/-- The `switch(get_create_type())` of `create_plan`, with its `default`
label that throws. -/
def create_switch (t : Int) (V : Vendor) (w : World) : Res World hipfftResult_t :=
  if t = PLAN_Nd.toInt then create_plan_Nd V w
  else if t = PLAN_MANY.toInt then create_plan_many V w
  else if t = CREATE_MAKE_PLAN_Nd.toInt then create_make_plan_Nd V w
  else if t = CREATE_MAKE_PLAN_MANY.toInt then create_make_plan_many V w
  else if t = CREATE_MAKE_PLAN_MANY64.toInt then create_make_plan_many64 V w
  else Res.threw "no valid plan creation type" w

/-- The member `create_plan`. -/
def create_plan (V : Vendor) (B : fft_base) (w : World) : Res World fft_status :=
  ((setup_structs w.obj).inWorld w).andThen fun fft_ret w1 =>
    if fft_ret ≠ fft_status_success then Res.ret fft_ret w1
    else
      match get_create_type B w1.obj.tofft_params with
      | none => Res.undefined
      | some t =>
        (create_switch t V w1).andThen fun code w2 =>
          Res.ret (fft_status_from_hipfftparams code) w2

/-! ## Callbacks (lines 264-341) -/

/-- The two registrations that every `case` of `set_callbacks` makes: the
load callback of kind `ld`, then the store callback of kind `st`, each
followed by an early return of the translated code when it is not
`HIPFFT_SUCCESS`; after the `break` the function returns success. -/
def register_callbacks (V : Vendor) (w : World) (load_cb_host load_cb_data store_cb_host
    store_cb_data : Ptr) (ld st : hipfftXtCallbackType) : Res World fft_status :=
  let r1 := callPlain V
    (VendorCall.hipfftXtSetCallback w.obj.plan load_cb_host ld load_cb_data) w
  if r1.1 ≠ HIPFFT_SUCCESS then Res.ret (fft_status_from_hipfftparams r1.1) r1.2
  else
    let r2 := callPlain V
      (VendorCall.hipfftXtSetCallback r1.2.obj.plan store_cb_host st store_cb_data) r1.2
    if r2.1 ≠ HIPFFT_SUCCESS then Res.ret (fft_status_from_hipfftparams r2.1) r2.2
    else Res.ret fft_status_success r2.2

/-- The member `set_callbacks`, case labels in source order. -/
def set_callbacks (V : Vendor) (w : World) (load_cb_host load_cb_data store_cb_host
    store_cb_data : Ptr) : Res World fft_status :=
  if w.obj.run_callbacks then
    let t := w.obj.hipfft_transform_type
    if t = HIPFFT_R2C then
      register_callbacks V w load_cb_host load_cb_data store_cb_host store_cb_data
        HIPFFT_CB_LD_REAL HIPFFT_CB_ST_COMPLEX
    else if t = HIPFFT_D2Z then
      register_callbacks V w load_cb_host load_cb_data store_cb_host store_cb_data
        HIPFFT_CB_LD_REAL_DOUBLE HIPFFT_CB_ST_COMPLEX_DOUBLE
    else if t = HIPFFT_C2R then
      register_callbacks V w load_cb_host load_cb_data store_cb_host store_cb_data
        HIPFFT_CB_LD_COMPLEX HIPFFT_CB_ST_REAL
    else if t = HIPFFT_Z2D then
      register_callbacks V w load_cb_host load_cb_data store_cb_host store_cb_data
        HIPFFT_CB_LD_COMPLEX_DOUBLE HIPFFT_CB_ST_REAL_DOUBLE
    else if t = HIPFFT_C2C then
      register_callbacks V w load_cb_host load_cb_data store_cb_host store_cb_data
        HIPFFT_CB_LD_COMPLEX HIPFFT_CB_ST_COMPLEX
    else if t = HIPFFT_Z2Z then
      register_callbacks V w load_cb_host load_cb_data store_cb_host store_cb_data
        HIPFFT_CB_LD_COMPLEX_DOUBLE HIPFFT_CB_ST_COMPLEX_DOUBLE
    else Res.threw "Invalid execution type" w
  else Res.ret fft_status_success w

/-! ## Execution (lines 348-406) -/

/-- The output buffer that `execute` passes: the input buffer when the
placement is in place, the output buffer otherwise. -/
def out_buffer (p : fft_params) (ibuffer obuffer : Ptr) : Ptr :=
  if p.placement = fft_placement_inplace then ibuffer else obuffer

/-- The `try` block of `execute`: the new value of `ret`, or the exception
of the `default` label. -/
def execute_try (V : Vendor) (w : World) (ibuffer obuffer : Ptr) : Res World hipfftResult_t :=
  let p := w.obj
  let t := p.hipfft_transform_type
  if t = HIPFFT_R2C then
    retPair (callPlain V
      (VendorCall.hipfftExecR2C p.plan ibuffer (out_buffer p.tofft_params ibuffer obuffer)) w)
  else if t = HIPFFT_D2Z then
    retPair (callPlain V
      (VendorCall.hipfftExecD2Z p.plan ibuffer (out_buffer p.tofft_params ibuffer obuffer)) w)
  else if t = HIPFFT_C2R then
    retPair (callPlain V
      (VendorCall.hipfftExecC2R p.plan ibuffer (out_buffer p.tofft_params ibuffer obuffer)) w)
  else if t = HIPFFT_Z2D then
    retPair (callPlain V
      (VendorCall.hipfftExecZ2D p.plan ibuffer (out_buffer p.tofft_params ibuffer obuffer)) w)
  else if t = HIPFFT_C2C then
    retPair (callPlain V
      (VendorCall.hipfftExecC2C p.plan ibuffer (out_buffer p.tofft_params ibuffer obuffer)
        p.direction) w)
  else if t = HIPFFT_Z2Z then
    retPair (callPlain V
      (VendorCall.hipfftExecZ2Z p.plan ibuffer (out_buffer p.tofft_params ibuffer obuffer)
        p.direction) w)
  else Res.threw "Invalid execution type" w

/-- The member `execute(void* ibuffer, void* obuffer)`: `ret` starts as
`HIPFFT_EXEC_FAILED`; an exception of the `try` block is caught and its
message written to `std::cerr`. -/
def execute (V : Vendor) (w : World) (ibuffer obuffer : Ptr) : Res World fft_status :=
  match execute_try V w ibuffer obuffer with
  | Res.ret code w1 => Res.ret (fft_status_from_hipfftparams code) w1
  | Res.threw msg w1 =>
    Res.ret (fft_status_from_hipfftparams HIPFFT_EXEC_FAILED) { w1 with cerr := w1.cerr ++ [msg] }
  | Res.undefined => Res.undefined

/-! ## Memory estimate and release (lines 132-156) -/

/-- The member `vram_footprint`, in `size_t` arithmetic. -/
def vram_footprint (B : fft_base) (p : hipfft_params) : Res hipfft_params Nat :=
  let val := B.vram_footprint p.tofft_params % 2 ^ 64
  (setup_structs p).andThen fun st p1 =>
    if st ≠ fft_status_success then Res.threw "Struct setup failed" p1
    else
      let p2 := { p1 with workbuffersize := 0 }
      let p3 := { p2 with workbuffersize := (3 * val) % 2 ^ 64 }
      Res.ret ((val + p3.workbuffersize) % 2 ^ 64) p3

/-- The member `free`. -/
def free (V : Vendor) (B : fft_base) (w : World) : World :=
  if w.obj.plan ≠ B.INVALID_PLAN_HANDLE then
    let r := callPlain V (VendorCall.hipfftDestroy w.obj.plan) w
    { r.2 with obj := { r.2.obj with plan := B.INVALID_PLAN_HANDLE } }
  else w

/-! ## Observations on outcomes and traces -/

/-- The vendor calls that an outcome has added to the trace of the world
`w` it started from; none when the behaviour is not defined. -/
def new_calls {α : Type} (w : World) : Res World α → List VendorCall
  | Res.ret _ w1 => w1.trace.drop w.trace.length
  | Res.threw _ w1 => w1.trace.drop w.trace.length
  | Res.undefined => []

/-- The 2D and 3D plan calls, which take no batch count. -/
def is_plan_2d3d : VendorCall → Bool
  | VendorCall.hipfftPlan2d _ _ _ _ => true
  | VendorCall.hipfftPlan3d _ _ _ _ _ => true
  | VendorCall.hipfftMakePlan2d _ _ _ _ _ => true
  | VendorCall.hipfftMakePlan3d _ _ _ _ _ _ => true
  | _ => false

/-- The calls to `hipfftExtPlanScaleFactor`. -/
def is_scale_call : VendorCall → Bool
  | VendorCall.hipfftExtPlanScaleFactor _ _ => true
  | _ => false

/-- The calls that make a plan on a handle created before: `hipfftMakePlan1d`,
`2d`, `3d`, `Many` and `Many64`. -/
def is_make_call : VendorCall → Bool
  | VendorCall.hipfftMakePlan1d _ _ _ _ _ => true
  | VendorCall.hipfftMakePlan2d _ _ _ _ _ => true
  | VendorCall.hipfftMakePlan3d _ _ _ _ _ _ => true
  | VendorCall.hipfftMakePlanMany _ _ _ _ _ _ _ _ _ _ _ _ => true
  | VendorCall.hipfftMakePlanMany64 _ _ _ _ _ _ _ _ _ _ _ _ => true
  | _ => false

/-- The combined allocate and init calls `hipfftPlan1d`, `2d`, `3d` and `Many`. -/
def is_combined_call : VendorCall → Bool
  | VendorCall.hipfftPlan1d _ _ _ _ => true
  | VendorCall.hipfftPlan2d _ _ _ _ => true
  | VendorCall.hipfftPlan3d _ _ _ _ _ => true
  | VendorCall.hipfftPlanMany _ _ _ _ _ _ _ _ _ _ _ => true
  | _ => false

/-- The kind of the elements a transform reads or writes. -/
inductive elem_kind where
  | real
  | real_double
  | complex
  | complex_double
  deriving DecidableEq, Repr

/-- The input element kind of the six known transform types, following
the specification: the kind before the `2` in the name of the type, `D` and
`Z` being the double-precision real and complex. -/
def input_kind (t : hipfftType) : Option elem_kind :=
  if t = HIPFFT_R2C then some elem_kind.real
  else if t = HIPFFT_C2R then some elem_kind.complex
  else if t = HIPFFT_C2C then some elem_kind.complex
  else if t = HIPFFT_D2Z then some elem_kind.real_double
  else if t = HIPFFT_Z2D then some elem_kind.complex_double
  else if t = HIPFFT_Z2Z then some elem_kind.complex_double
  else none

/-- The output element kind of the six known transform types: the kind
after the `2` in the name of the type. -/
def output_kind (t : hipfftType) : Option elem_kind :=
  if t = HIPFFT_R2C then some elem_kind.complex
  else if t = HIPFFT_C2R then some elem_kind.real
  else if t = HIPFFT_C2C then some elem_kind.complex
  else if t = HIPFFT_D2Z then some elem_kind.complex_double
  else if t = HIPFFT_Z2D then some elem_kind.real_double
  else if t = HIPFFT_Z2Z then some elem_kind.complex_double
  else none

/-- The load callback kind for an element kind. -/
def load_callback_of : elem_kind → hipfftXtCallbackType
  | elem_kind.real => HIPFFT_CB_LD_REAL
  | elem_kind.real_double => HIPFFT_CB_LD_REAL_DOUBLE
  | elem_kind.complex => HIPFFT_CB_LD_COMPLEX
  | elem_kind.complex_double => HIPFFT_CB_LD_COMPLEX_DOUBLE

/-- The store callback kind for an element kind. -/
def store_callback_of : elem_kind → hipfftXtCallbackType
  | elem_kind.real => HIPFFT_CB_ST_REAL
  | elem_kind.real_double => HIPFFT_CB_ST_REAL_DOUBLE
  | elem_kind.complex => HIPFFT_CB_ST_COMPLEX
  | elem_kind.complex_double => HIPFFT_CB_ST_COMPLEX_DOUBLE

/-- The registration of the load callback for input elements of kind `ik`. -/
def load_registration (w : World) (load_cb_host load_cb_data : Ptr) (ik : elem_kind) :
    VendorCall :=
  VendorCall.hipfftXtSetCallback w.obj.plan load_cb_host (load_callback_of ik) load_cb_data

/-- The registration of the store callback for output elements of kind `ok`. -/
def store_registration (w : World) (store_cb_host store_cb_data : Ptr) (ok : elem_kind) :
    VendorCall :=
  VendorCall.hipfftXtSetCallback w.obj.plan store_cb_host (store_callback_of ok) store_cb_data

/-- The six known transform types. -/
def known_type (t : hipfftType) : Prop :=
  t = HIPFFT_R2C ∨ t = HIPFFT_D2Z ∨ t = HIPFFT_C2R ∨ t = HIPFFT_Z2D ∨ t = HIPFFT_C2C ∨
    t = HIPFFT_Z2Z

instance (t : hipfftType) : Decidable (known_type t) := by
  unfold known_type
  infer_instance

/-- The vendor exec call that matches a known transform type, with the
direction only for the two complex-to-complex types. -/
def exec_call_of (t : hipfftType) (plan : hipfftHandle) (idata odata : Ptr) (direction : Int) :
    Option VendorCall :=
  if t = HIPFFT_R2C then some (VendorCall.hipfftExecR2C plan idata odata)
  else if t = HIPFFT_C2R then some (VendorCall.hipfftExecC2R plan idata odata)
  else if t = HIPFFT_C2C then some (VendorCall.hipfftExecC2C plan idata odata direction)
  else if t = HIPFFT_D2Z then some (VendorCall.hipfftExecD2Z plan idata odata)
  else if t = HIPFFT_Z2D then some (VendorCall.hipfftExecZ2D plan idata odata)
  else if t = HIPFFT_Z2Z then some (VendorCall.hipfftExecZ2Z plan idata odata direction)
  else none

/-- The strides for which `setup_structs` is defined in dimension `d`: at
least `d` entries, and no zero among the divisors, the entries 1 to `d - 1`. -/
def strides_defined (stride : List Nat) (d : Nat) : Prop :=
  d ≤ stride.length ∧ ∀ i, i < d → 0 < i → stride.getD i 0 ≠ 0

instance (stride : List Nat) (d : Nat) : Decidable (strides_defined stride d) := by
  unfold strides_defined
  infer_instance

/-! ## Sample inputs -/

/-- A sample vendor library in which every call succeeds, hands out the plan
handle 7 and asks for 64 bytes of work buffer. -/
def sample_vendor : Vendor := fun _ _ => { code := HIPFFT_SUCCESS, plan := 7, workSize := 64 }

/-- Sample base members: unit strides and distances, an empty token hashed
by its length, plus the invalid plan handle of the rocFFT backend. -/
def sample_base : fft_base where
  compute_stride := fun len _ _ => len.map fun _ => 1
  ilength := fun p => p.length
  olength := fun p => p.length
  compute_idist := fun _ => 8
  compute_odist := fun _ => 8
  token := fun _ => ""
  hash := fun s => s.length
  vram_footprint := fun _ => 1024
  INVALID_PLAN_HANDLE := 0

/-- Sample parameters: a single-precision complex forward transform of one
dimension and length 8, out of place, unit stride, one batch, no scaling. -/
def sample_params : fft_params where
  length := [8]
  istride := [1]
  ostride := [1]
  nbatch := 1
  precision := fft_precision_single
  transform_type := 0
  placement := fft_placement_notinplace
  idist := 8
  odist := 8
  scale_factor := Double.one
  run_callbacks := true
  workbuffersize := 0

/-- A sample object: the sample parameters with the fields of a freshly
constructed `hipfft_params`. -/
def sample_object : hipfft_params where
  tofft_params := sample_params
  plan := 0
  hipfft_transform_type := 0
  direction := 0
  int_length := []
  int_inembed := []
  int_onembed := []
  ll_length := []
  ll_inembed := []
  ll_onembed := []

/-- A sample world: the sample object before any vendor call. -/
def sample_world : World where
  obj := sample_object
  trace := []
  cerr := []

/-- A sample object of dimension 2: lengths 4 and 8 in row-major layout,
strides 8 and 1. -/
def sample_object_2d : hipfft_params :=
  { sample_object with length := [4, 8], istride := [8, 1], ostride := [8, 1] }

/-- An object of dimension 1 whose length and input stride are `2^63`, a
value that `size_t` holds and `long long` does not. -/
def overflow_object : hipfft_params :=
  { sample_object with length := [9223372036854775808], istride := [9223372036854775808] }

/-! ## Theorems -/

/-- C1: `fft_status_from_hipfftparams` is a total map on result codes that
agrees with the table of the specification on every integer, named
enumerator or not, and it gives `fft_status_success` exactly on
`HIPFFT_SUCCESS`. -/
theorem fft_status_from_hipfftparams_table (val : hipfftResult_t) :
    fft_status_from_hipfftparams val = status_table val ∧
    (fft_status_from_hipfftparams val = fft_status_success ↔ val = HIPFFT_SUCCESS) := by
  unfold fft_status_from_hipfftparams status_table
  simp only [HIPFFT_SUCCESS, HIPFFT_INVALID_PLAN, HIPFFT_ALLOC_FAILED, HIPFFT_INVALID_TYPE,
    HIPFFT_INVALID_VALUE, HIPFFT_INTERNAL_ERROR, HIPFFT_EXEC_FAILED, HIPFFT_SETUP_FAILED,
    HIPFFT_INVALID_SIZE, HIPFFT_UNALIGNED_DATA, HIPFFT_INCOMPLETE_PARAMETER_LIST,
    HIPFFT_INVALID_DEVICE, HIPFFT_PARSE_ERROR, HIPFFT_NO_WORKSPACE, HIPFFT_NOT_IMPLEMENTED,
    HIPFFT_NOT_SUPPORTED, List.mem_cons, List.mem_singleton, List.not_mem_nil, or_false]
  constructor
  · split_ifs <;> first | rfl | (exfalso; unfold hipfftResult_t at *; omega)
  · split_ifs <;> simp_all

/-- The translation of a result code is `fft_status_success` only for
`HIPFFT_SUCCESS`. -/
theorem status_success_iff (val : hipfftResult_t) :
    fft_status_from_hipfftparams val = fft_status_success ↔ val = HIPFFT_SUCCESS := by
  unfold fft_status_from_hipfftparams
  simp only [HIPFFT_SUCCESS, HIPFFT_INVALID_PLAN, HIPFFT_ALLOC_FAILED, HIPFFT_INVALID_TYPE,
    HIPFFT_INVALID_VALUE, HIPFFT_INTERNAL_ERROR, HIPFFT_EXEC_FAILED, HIPFFT_SETUP_FAILED,
    HIPFFT_INVALID_SIZE, HIPFFT_UNALIGNED_DATA, HIPFFT_INCOMPLETE_PARAMETER_LIST,
    HIPFFT_INVALID_DEVICE, HIPFFT_PARSE_ERROR, HIPFFT_NO_WORKSPACE, HIPFFT_NOT_IMPLEMENTED,
    HIPFFT_NOT_SUPPORTED]
  split_ifs <;> simp_all

/-! ### The choice of the creation API -/

/-- The vector `allowed_apis` is one of four lists, decided by whether the
scale factor is `1.0` and whether the non-many APIs are allowed. -/
theorem allowed_apis_eq (B : fft_base) (p : fft_params) :
    allowed_apis B p =
      (if Double.eq p.scale_factor Double.one then
        (if is_contiguous B p && (!decide (p.nbatch > 1) || decide (dim p = 1)) then
          [CREATE_MAKE_PLAN_MANY, CREATE_MAKE_PLAN_MANY64, PLAN_MANY, PLAN_Nd, CREATE_MAKE_PLAN_Nd]
        else [CREATE_MAKE_PLAN_MANY, CREATE_MAKE_PLAN_MANY64, PLAN_MANY])
      else
        (if is_contiguous B p && (!decide (p.nbatch > 1) || decide (dim p = 1)) then
          [CREATE_MAKE_PLAN_MANY, CREATE_MAKE_PLAN_MANY64, CREATE_MAKE_PLAN_Nd]
        else [CREATE_MAKE_PLAN_MANY, CREATE_MAKE_PLAN_MANY64])) := by
  unfold allowed_apis
  by_cases h1 : Double.eq p.scale_factor Double.one = true <;>
    by_cases h2 : (is_contiguous B p && (!decide (p.nbatch > 1) || decide (dim p = 1))) = true <;>
    simp [h1, h2]

/-- The vector `allowed_apis` has at least two entries. -/
theorem allowed_apis_length (B : fft_base) (p : fft_params) :
    2 ≤ (allowed_apis B p).length ∧ (allowed_apis B p).length ≤ 5 := by
  rw [allowed_apis_eq]
  split_ifs <;> simp

/-- The read of `allowed_apis` in `get_create_type` is in range, and the
function returns the entry read. -/
theorem get_create_type_eq (B : fft_base) (p : fft_params) :
    ∃ api : PlanCreateAPI, api ∈ allowed_apis B p ∧
      (allowed_apis B p)[B.hash (B.token p) % (allowed_apis B p).length]? = some api ∧
      get_create_type B p = some api.toInt := by
  have hlen := (allowed_apis_length B p).1
  have hpos : 0 < (allowed_apis B p).length := by omega
  have hlt : B.hash (B.token p) % (allowed_apis B p).length < (allowed_apis B p).length :=
    Nat.mod_lt _ hpos
  refine ⟨(allowed_apis B p)[B.hash (B.token p) % (allowed_apis B p).length], ?_, ?_, ?_⟩
  · exact List.getElem_mem _
  · exact List.getElem?_eq_getElem hlt
  · unfold get_create_type
    have hne : (allowed_apis B p).length ≠ 0 := by omega
    simp only [hne, if_false, List.getElem?_eq_getElem hlt, Option.map_some']

/-- The translation of `HIPFFT_SUCCESS` is `fft_status_success`. -/
theorem status_of_success : fft_status_from_hipfftparams HIPFFT_SUCCESS = fft_status_success := by
  decide

/-- A status returned by `setup_structs` is `fft_status_success`. -/
theorem setup_structs_ret_success (p p1 : hipfft_params) (st : fft_status)
    (h : setup_structs p = Res.ret st p1) : st = fft_status_success := by
  simp only [setup_structs] at h
  split at h
  · exact absurd h (by simp)
  · split at h
    · exact absurd h (by simp)
    · exact absurd h (by simp)
    · split at h
      · exact absurd h (by simp)
      · simp only [Res.ret.injEq] at h
        rw [← h.1]
        exact status_of_success

/-- An exception of `setup_structs` carries one of its two messages. -/
theorem setup_structs_threw_msg (p p1 : hipfft_params) (msg : String)
    (h : setup_structs p = Res.threw msg p1) :
    msg = "Invalid transform type" ∨ msg = "Invalid dimension" := by
  simp only [setup_structs] at h
  split at h
  · simp only [Res.threw.injEq] at h
    exact Or.inl h.1.symm
  · split at h
    · simp only [Res.threw.injEq] at h
      exact Or.inr h.1.symm
    · exact absurd h (by simp)
    · split at h
      · exact absurd h (by simp)
      · exact absurd h (by simp)

/-- The member `create_with_scale_factor` always returns. -/
theorem create_with_scale_factor_returns (V : Vendor) (w : World) :
    ∃ code w1, create_with_scale_factor V w = Res.ret code w1 := by
  simp only [create_with_scale_factor]
  split_ifs <;> exact ⟨_, _, rfl⟩

/-- An exception of a creation routine carries the message `invalid dim`. -/
theorem creation_routine_threw_msg (api : PlanCreateAPI) (V : Vendor) (w w1 : World)
    (msg : String) (h : creation_routine api V w = Res.threw msg w1) : msg = "invalid dim" := by
  cases api
  · simp only [creation_routine, create_plan_Nd, retPair] at h
    split_ifs at h
    · split at h <;> simp at h
    · split at h <;> simp at h
    · split at h <;> simp at h
    · simp only [Res.threw.injEq] at h
      exact h.1.symm
  · simp only [creation_routine, create_plan_many, retPair] at h
    split at h <;> simp at h
  · simp only [creation_routine, create_make_plan_Nd, retPair] at h
    obtain ⟨code, w2, hc⟩ := create_with_scale_factor_returns V w
    rw [hc] at h
    simp only [Res.andThen] at h
    split_ifs at h
    · split at h <;> simp at h
    · split at h <;> simp at h
    · split at h <;> simp at h
    · simp only [Res.threw.injEq] at h
      exact h.1.symm
  · simp only [creation_routine, create_make_plan_many, retPair] at h
    obtain ⟨code, w2, hc⟩ := create_with_scale_factor_returns V w
    rw [hc] at h
    simp only [Res.andThen] at h
    split_ifs at h
    split at h <;> simp at h
  · simp only [creation_routine, create_make_plan_many64, retPair] at h
    obtain ⟨code, w2, hc⟩ := create_with_scale_factor_returns V w
    rw [hc] at h
    simp only [Res.andThen] at h
    split_ifs at h
    split at h <;> simp at h

/-- The `switch` of `create_plan` on the integer of an enumerator calls the
routine of that enumerator. -/
theorem create_switch_toInt (api : PlanCreateAPI) (V : Vendor) (w : World) :
    create_switch api.toInt V w = creation_routine api V w := by
  cases api <;> simp [create_switch, creation_routine, PlanCreateAPI.toInt]

/-- Distinct enumerators of `PlanCreateAPI` have distinct integers. -/
theorem toInt_injective (a b : PlanCreateAPI) (h : a.toInt = b.toInt) : a = b := by
  cases a <;> cases b <;> first | rfl | exact absurd h (by decide)

/-- A non-many API is in `allowed_apis` only when the transform is
contiguous and either not batched or of one dimension. -/
theorem non_many_allowed (B : fft_base) (p : fft_params) (api : PlanCreateAPI)
    (hmem : api ∈ allowed_apis B p) (hapi : api = PLAN_Nd ∨ api = CREATE_MAKE_PLAN_Nd) :
    is_contiguous B p = true ∧ (p.nbatch ≤ 1 ∨ dim p = 1) := by
  rw [allowed_apis_eq] at hmem
  by_cases h2 : (is_contiguous B p && (!decide (p.nbatch > 1) || decide (dim p = 1))) = true
  · simp only [Bool.and_eq_true, Bool.or_eq_true, Bool.not_eq_true', decide_eq_false_iff_not,
      decide_eq_true_eq] at h2
    refine ⟨h2.1, ?_⟩
    rcases h2.2 with h | h
    · left; omega
    · right; exact h
  · rw [Bool.not_eq_true] at h2
    rw [h2] at hmem
    rcases hapi with h | h <;> subst h <;> split_ifs at hmem <;> simp_all

/-- A combined API is in `allowed_apis` only when the scale factor is `1.0`. -/
theorem combined_allowed (B : fft_base) (p : fft_params) (api : PlanCreateAPI)
    (hmem : api ∈ allowed_apis B p) (hapi : api = PLAN_Nd ∨ api = PLAN_MANY) :
    Double.eq p.scale_factor Double.one = true := by
  rw [allowed_apis_eq] at hmem
  by_cases h1 : Double.eq p.scale_factor Double.one = true
  · exact h1
  · rw [Bool.not_eq_true] at h1
    rw [h1] at hmem
    rcases hapi with h | h <;> subst h <;> split_ifs at hmem <;> simp_all

/-- What `get_create_type` returns is an entry of `allowed_apis`. -/
theorem get_create_type_mem (B : fft_base) (p : fft_params) (api : PlanCreateAPI)
    (h : get_create_type B p = some api.toInt) : api ∈ allowed_apis B p := by
  obtain ⟨a, hmem, _, ha⟩ := get_create_type_eq B p
  rw [ha] at h
  have := toInt_injective _ _ (Option.some.inj h)
  rw [← this]
  exact hmem

/-- The member `setup_structs` leaves the fields of the base class as they are. -/
theorem embed_case3_base (p q : hipfft_params) (h : embed_case3 p = some q) :
    q.tofft_params = p.tofft_params := by
  simp only [embed_case3, Option.bind_eq_bind, Option.bind_eq_some, Option.pure_def,
    Option.some.injEq] at h
  obtain ⟨_, _, _, _, _, _, _, _, _, _, _, _, _, _, _, _, h⟩ := h
  rw [← h]

/-- The assignments of `case 2` leave the fields of the base class as they are. -/
theorem embed_case2_base (p q : hipfft_params) (h : embed_case2 p = some q) :
    q.tofft_params = p.tofft_params := by
  simp only [embed_case2, Option.bind_eq_bind, Option.bind_eq_some, Option.pure_def,
    Option.some.injEq] at h
  obtain ⟨_, _, _, _, _, _, _, _, _, _, _, _, _, _, _, _, h⟩ := h
  rw [← h]

/-- The assignments of `case 1` leave the fields of the base class as they are. -/
theorem embed_case1_base (p q : hipfft_params) (h : embed_case1 p = some q) :
    q.tofft_params = p.tofft_params := by
  simp only [embed_case1, Option.bind_eq_bind, Option.bind_eq_some, Option.pure_def,
    Option.some.injEq] at h
  obtain ⟨_, _, _, _, _, _, _, _, h⟩ := h
  rw [← h]

/-- One turn of the copy loop leaves the fields of the base class as they are. -/
theorem copy_step_base (p q : hipfft_params) (i : Nat) (h : copy_step p i = some q) :
    q.tofft_params = p.tofft_params := by
  simp only [copy_step, Option.bind_eq_bind, Option.bind_eq_some, Option.pure_def,
    Option.some.injEq] at h
  obtain ⟨_, _, _, _, _, _, _, _, _, _, _, _, _, _, h⟩ := h
  rw [← h]

/-- The copy loop over any list of indices leaves the fields of the base
class as they are. -/
theorem copy_fold_base (l : List Nat) (p q : hipfft_params)
    (h : l.foldlM copy_step p = some q) : q.tofft_params = p.tofft_params := by
  induction l generalizing p with
  | nil =>
    simp only [List.foldlM_nil, Option.pure_def, Option.some.injEq] at h
    rw [h]
  | cons i l ih =>
    simp only [List.foldlM_cons, Option.bind_eq_bind, Option.bind_eq_some] at h
    obtain ⟨p1, h1, h2⟩ := h
    rw [ih p1 h2, copy_step_base p p1 i h1]

/-- The second `switch` leaves the fields of the base class as they are. -/
theorem embed_switch_base (p q : hipfft_params) (h : embed_switch p = some (some q)) :
    q.tofft_params = p.tofft_params := by
  simp only [embed_switch] at h
  split_ifs at h
  · simp only [Option.some.injEq, Option.bind_eq_bind, Option.bind_eq_some] at h
    obtain ⟨p2, ⟨p3, h3, h2⟩, h1⟩ := h
    rw [embed_case1_base _ _ h1, embed_case2_base _ _ h2, embed_case3_base _ _ h3]
  · simp only [Option.some.injEq, Option.bind_eq_bind, Option.bind_eq_some] at h
    obtain ⟨p2, h2, h1⟩ := h
    rw [embed_case1_base _ _ h1, embed_case2_base _ _ h2]
  · simp only [Option.some.injEq] at h
    exact embed_case1_base _ _ h

/-- The member `setup_structs` leaves the fields of the base class as they
are, whether it returns or throws. -/
theorem setup_structs_base (p q : hipfft_params) :
    (∀ st, setup_structs p = Res.ret st q → q.tofft_params = p.tofft_params) ∧
    (∀ msg, setup_structs p = Res.threw msg q → q.tofft_params = p.tofft_params) := by
  constructor
  · intro st h
    simp only [setup_structs] at h
    split at h
    · exact absurd h (by simp)
    · split at h
      · exact absurd h (by simp)
      · exact absurd h (by simp)
      · rename_i p2 he
        split at h
        · exact absurd h (by simp)
        · rename_i p3 hc
          simp only [Res.ret.injEq] at h
          rw [← h.2, copy_fold_base _ _ _ hc, embed_switch_base _ _ he]
          rfl
  · intro msg h
    simp only [setup_structs] at h
    split at h
    · simp only [Res.threw.injEq] at h
      rw [h.2]
    · split at h
      · simp only [Res.threw.injEq] at h
        rw [← h.2]
        rfl
      · exact absurd h (by simp)
      · split at h <;> exact absurd h (by simp)

/-- The member `create_with_scale_factor` returns, and adds to the trace
`hipfftCreate`, followed by `hipfftExtPlanScaleFactor` exactly when the
creation succeeded and the scale factor differs from `1.0`; the base fields
are unchanged and a returned `HIPFFT_SUCCESS` means the creation succeeded. -/
theorem create_with_scale_factor_calls (V : Vendor) (w : World) :
    ∃ code w1, create_with_scale_factor V w = Res.ret code w1 ∧
      w1.obj.tofft_params = w.obj.tofft_params ∧
      w1.trace = w.trace ++ (VendorCall.hipfftCreate w.obj.plan ::
        (if (V w.trace (VendorCall.hipfftCreate w.obj.plan)).code = HIPFFT_SUCCESS ∧
            Double.ne w.obj.scale_factor Double.one = true then
          [VendorCall.hipfftExtPlanScaleFactor
            (V w.trace (VendorCall.hipfftCreate w.obj.plan)).plan w.obj.scale_factor]
        else [])) ∧
      (code = HIPFFT_SUCCESS →
        (V w.trace (VendorCall.hipfftCreate w.obj.plan)).code = HIPFFT_SUCCESS) := by
  simp only [create_with_scale_factor, callSetPlan, callPlain, callVendor]
  by_cases h1 : (V w.trace (VendorCall.hipfftCreate w.obj.plan)).code = HIPFFT_SUCCESS
  · by_cases h2 : Double.ne w.obj.scale_factor Double.one = true
    · simp only [h1, h2, ne_eq, not_true_eq_false, if_false, if_true, and_self, ite_self]
      exact ⟨_, _, rfl, rfl, by simp, fun _ => trivial⟩
    · simp only [h1, h2, ne_eq, not_true_eq_false, if_false, and_false]
      exact ⟨_, _, rfl, rfl, rfl, fun _ => trivial⟩
  · simp only [h1, ne_eq, not_false_eq_true, if_true, false_and, if_false]
    exact ⟨_, _, rfl, rfl, rfl, fun h => absurd h h1⟩

/-- The calls added by a vendor call that writes the plan handle. -/
theorem new_calls_callSetPlan (V : Vendor) (w w1 : World) (c : VendorCall)
    (pre : List VendorCall) (h : w1.trace = w.trace ++ pre) :
    new_calls w (retPair (callSetPlan V c w1)) = pre ++ [c] := by
  simp [new_calls, retPair, callSetPlan, callVendor, h]

/-- The calls added by a vendor call that writes the work size. -/
theorem new_calls_callSetWork (V : Vendor) (w w1 : World) (c : VendorCall)
    (pre : List VendorCall) (h : w1.trace = w.trace ++ pre) :
    new_calls w (retPair (callSetWork V c w1)) = pre ++ [c] := by
  simp [new_calls, retPair, callSetWork, callVendor, h]

/-- The calls added by a vendor call without output arguments. -/
theorem new_calls_callPlain (V : Vendor) (w w1 : World) (c : VendorCall)
    (pre : List VendorCall) (h : w1.trace = w.trace ++ pre) :
    new_calls w (retPair (callPlain V c w1)) = pre ++ [c] := by
  simp [new_calls, retPair, callPlain, callVendor, h]

/-- Translating the returned value of an outcome adds no call. -/
theorem new_calls_andThen_ret {α β : Type} (w : World) (r : Res World α) (f : α → β) :
    new_calls w (r.andThen fun a w1 => Res.ret (f a) w1) = new_calls w r := by
  cases r <;> rfl

/-- The combined routines `create_plan_Nd` and `create_plan_many` make at
most one vendor call, a combined one; it is a 2D or 3D call only in
`create_plan_Nd` for a dimension other than 1. -/
theorem combined_routine_calls (api : PlanCreateAPI) (V : Vendor) (w : World)
    (hapi : api = PLAN_Nd ∨ api = PLAN_MANY) :
    new_calls w (creation_routine api V w) = [] ∨
    ∃ c, new_calls w (creation_routine api V w) = [c] ∧ is_combined_call c = true ∧
      (is_plan_2d3d c = true → api = PLAN_Nd ∧ dim w.obj.tofft_params ≠ 1) := by
  have h0 : w.trace = w.trace ++ [] := by simp
  rcases hapi with h | h <;> subst h
  · simp only [creation_routine, create_plan_Nd]
    split_ifs with d1 d2 d3
    · split
      · rw [new_calls_callSetPlan V w w _ [] h0]
        exact Or.inr ⟨_, rfl, rfl, fun h => absurd h (by simp [is_plan_2d3d])⟩
      · left; rfl
    · split
      · rw [new_calls_callSetPlan V w w _ [] h0]
        exact Or.inr ⟨_, rfl, rfl, fun _ => ⟨by first | rfl | trivial, d1⟩⟩
      · left; rfl
    · split
      · rw [new_calls_callSetPlan V w w _ [] h0]
        exact Or.inr ⟨_, rfl, rfl, fun _ => ⟨by first | rfl | trivial, d1⟩⟩
      · left; rfl
    · left
      simp [new_calls]
  · simp only [creation_routine, create_plan_many]
    split
    · rw [new_calls_callSetPlan V w w _ [] h0]
      exact Or.inr ⟨_, rfl, rfl, fun h => absurd h (by simp [is_plan_2d3d])⟩
    · left; rfl

/-- The separate routines `create_make_plan_Nd`, `create_make_plan_many` and
`create_make_plan_many64` make the calls of `create_with_scale_factor` and
then at most one call, which makes the plan and comes only after a
successful creation; it is a 2D or 3D call only in `create_make_plan_Nd`
for a dimension other than 1. -/
theorem make_routine_calls (api : PlanCreateAPI) (V : Vendor) (w : World)
    (hapi : api = CREATE_MAKE_PLAN_Nd ∨ api = CREATE_MAKE_PLAN_MANY ∨
      api = CREATE_MAKE_PLAN_MANY64) :
    new_calls w (creation_routine api V w) = [] ∨
    ∃ rest, new_calls w (creation_routine api V w) =
        (VendorCall.hipfftCreate w.obj.plan ::
          (if (V w.trace (VendorCall.hipfftCreate w.obj.plan)).code = HIPFFT_SUCCESS ∧
              Double.ne w.obj.scale_factor Double.one = true then
            [VendorCall.hipfftExtPlanScaleFactor
              (V w.trace (VendorCall.hipfftCreate w.obj.plan)).plan w.obj.scale_factor]
          else [])) ++ rest ∧
      rest.length ≤ 1 ∧
      (rest ≠ [] → (V w.trace (VendorCall.hipfftCreate w.obj.plan)).code = HIPFFT_SUCCESS) ∧
      ∀ c ∈ rest, is_make_call c = true ∧
        (is_plan_2d3d c = true → api = CREATE_MAKE_PLAN_Nd ∧ dim w.obj.tofft_params ≠ 1) := by
  obtain ⟨code, w1, hc, hbase, htrace, hsucc⟩ := create_with_scale_factor_calls V w
  generalize (VendorCall.hipfftCreate w.obj.plan ::
      (if (V w.trace (VendorCall.hipfftCreate w.obj.plan)).code = HIPFFT_SUCCESS ∧
          Double.ne w.obj.scale_factor Double.one = true then
        [VendorCall.hipfftExtPlanScaleFactor
          (V w.trace (VendorCall.hipfftCreate w.obj.plan)).plan w.obj.scale_factor]
      else [])) = pre at htrace ⊢
  have hnil : ∀ msg, new_calls w (Res.threw msg w1 : Res World hipfftResult_t) = pre ++ [] := by
    intro msg
    simp [new_calls, htrace]
  have hnil2 : new_calls w (Res.ret code w1) = pre ++ [] := by
    simp [new_calls, htrace]
  rcases hapi with h | h | h <;> subst h
  · simp only [creation_routine, create_make_plan_Nd, hc, Res.andThen]
    by_cases hs : code = HIPFFT_SUCCESS
    · simp only [hs, ne_eq, not_true_eq_false, if_false, hbase]
      split_ifs with d1 d2 d3
      · split
        · right
          refine ⟨[_], new_calls_callSetWork V w w1 _ _ htrace, by simp, fun _ => hsucc hs, ?_⟩
          intro c hmem
          rw [List.mem_singleton] at hmem
          subst hmem
          exact ⟨rfl, fun h => absurd h (by simp [is_plan_2d3d])⟩
        · left; rfl
      · split
        · right
          refine ⟨[_], new_calls_callSetWork V w w1 _ _ htrace, by simp, fun _ => hsucc hs, ?_⟩
          intro c hmem
          rw [List.mem_singleton] at hmem
          subst hmem
          exact ⟨rfl, fun _ => ⟨by first | rfl | trivial, d1⟩⟩
        · left; rfl
      · split
        · right
          refine ⟨[_], new_calls_callSetWork V w w1 _ _ htrace, by simp, fun _ => hsucc hs, ?_⟩
          intro c hmem
          rw [List.mem_singleton] at hmem
          subst hmem
          exact ⟨rfl, fun _ => ⟨by first | rfl | trivial, d1⟩⟩
        · left; rfl
      · right
        exact ⟨[], hnil _, by simp, fun h => absurd rfl h, by simp⟩
    · simp only [hs, ne_eq, not_false_eq_true, if_true]
      right
      exact ⟨[], hnil2, by simp, fun h => absurd rfl h, by simp⟩
  · simp only [creation_routine, create_make_plan_many, hc, Res.andThen]
    by_cases hs : code = HIPFFT_SUCCESS
    · simp only [hs, ne_eq, not_true_eq_false, if_false]
      split
      · right
        refine ⟨[_], new_calls_callSetWork V w w1 _ _ htrace, by simp, fun _ => hsucc hs, ?_⟩
        intro c hmem
        rw [List.mem_singleton] at hmem
        subst hmem
        exact ⟨rfl, fun h => absurd h (by simp [is_plan_2d3d])⟩
      · left; rfl
    · simp only [hs, ne_eq, not_false_eq_true, if_true]
      right
      exact ⟨[], hnil2, by simp, fun h => absurd rfl h, by simp⟩
  · simp only [creation_routine, create_make_plan_many64, hc, Res.andThen]
    by_cases hs : code = HIPFFT_SUCCESS
    · simp only [hs, ne_eq, not_true_eq_false, if_false]
      split
      · right
        refine ⟨[_], new_calls_callSetWork V w w1 _ _ htrace, by simp, fun _ => hsucc hs, ?_⟩
        intro c hmem
        rw [List.mem_singleton] at hmem
        subst hmem
        exact ⟨rfl, fun h => absurd h (by simp [is_plan_2d3d])⟩
      · left; rfl
    · simp only [hs, ne_eq, not_false_eq_true, if_true]
      right
      exact ⟨[], hnil2, by simp, fun h => absurd rfl h, by simp⟩

/-- Neither `hipfftCreate` nor `hipfftExtPlanScaleFactor` is a 2D or 3D plan
call, a call that makes a plan, or a combined call. -/
theorem create_calls_kind (h : hipfftHandle) (cond : Prop) [Decidable cond] (c1 c : VendorCall)
    (hc : c ∈ VendorCall.hipfftCreate h :: (if cond then [c1] else []))
    (hsc : is_scale_call c1 = true) :
    is_plan_2d3d c = false ∧ is_make_call c = false ∧ is_combined_call c = false := by
  have hk : ∀ x, is_scale_call x = true →
      is_plan_2d3d x = false ∧ is_make_call x = false ∧ is_combined_call x = false := by
    intro x hx
    cases x <;> first | exact ⟨rfl, rfl, rfl⟩ | exact absurd hx (by simp [is_scale_call])
  rw [List.mem_cons] at hc
  rcases hc with hc | hc
  · subst hc
    exact ⟨rfl, rfl, rfl⟩
  · split_ifs at hc
    · rw [List.mem_singleton] at hc
      subst hc
      exact hk _ hsc
    · exact absurd hc (List.not_mem_nil c)

/-- The calls of `create_plan`: none when `setup_structs` does not return,
otherwise those of the creation routine of an allowed API, run on the object
that `setup_structs` leaves, with the same base fields and the same trace. -/
theorem create_plan_calls (V : Vendor) (B : fft_base) (w : World) :
    new_calls w (create_plan V B w) = [] ∨
    ∃ api w1, w1.obj.tofft_params = w.obj.tofft_params ∧ w1.trace = w.trace ∧
      api ∈ allowed_apis B w.obj.tofft_params ∧
      get_create_type B w.obj.tofft_params = some api.toInt ∧
      new_calls w (create_plan V B w) = new_calls w1 (creation_routine api V w1) := by
  unfold create_plan
  cases hs : setup_structs w.obj with
  | ret st p1 =>
    have hst := setup_structs_ret_success _ _ _ hs
    have hbase := (setup_structs_base w.obj p1).1 st hs
    subst hst
    obtain ⟨api, hmem, _, hget⟩ := get_create_type_eq B w.obj.tofft_params
    right
    refine ⟨api, { w with obj := p1 }, hbase, rfl, hmem, hget, ?_⟩
    simp only [Res.inWorld, Res.andThen, ne_eq, not_true_eq_false, if_false, hbase, hget,
      create_switch_toInt]
    cases creation_routine api V { w with obj := p1 } <;> rfl
  | threw msg p1 =>
    left
    simp [Res.inWorld, Res.andThen, new_calls]
  | undefined =>
    left
    simp [Res.inWorld, Res.andThen, new_calls]

/-! ### The arrays that `setup_structs` fills -/

/-- A resized vector has the requested size. -/
theorem resize_length (v : List Int) (n : Nat) : (resize v n).length = n := by
  simp only [resize, List.length_append, List.length_take, List.length_replicate]
  omega

/-- The second `switch` in dimension 1 on defined strides. -/
theorem embed_switch_dim1 (p : hipfft_params) (a i0 o0 : Nat) (ri ro : List Nat)
    (v0 w0 : Int) (hlen : p.length = [a])
    (hi : p.istride = i0 :: ri) (ho : p.ostride = o0 :: ro)
    (hv : p.ll_inembed = [v0]) (hw : p.ll_onembed = [w0]) :
    embed_switch p = some (some { p with
      ll_inembed := [toLL (Int.ofNat i0)]
      ll_onembed := [toLL (Int.ofNat o0)] }) := by
  simp [embed_switch, dim, hlen, embed_case1, hi, ho, hv, hw, setAt]

/-- The second `switch` in dimension 2 on defined strides. -/
theorem embed_switch_dim2 (p : hipfft_params) (a b i0 i1 o0 o1 : Nat) (ri ro : List Nat)
    (v0 v1 w0 w1 : Int) (hlen : p.length = [a, b])
    (hi : p.istride = i0 :: i1 :: ri) (ho : p.ostride = o0 :: o1 :: ro)
    (hv : p.ll_inembed = [v0, v1]) (hw : p.ll_onembed = [w0, w1])
    (hi1 : i1 ≠ 0) (ho1 : o1 ≠ 0) :
    embed_switch p = some (some { p with
      ll_inembed := [toLL (Int.ofNat i1), toLL (Int.ofNat (i0 / i1))]
      ll_onembed := [toLL (Int.ofNat o1), toLL (Int.ofNat (o0 / o1))] }) := by
  simp [embed_switch, dim, hlen, embed_case2, embed_case1, hi, ho, hv, hw, setAt, udiv, hi1, ho1]

/-- The second `switch` in dimension 3 on defined strides. -/
theorem embed_switch_dim3 (p : hipfft_params) (a b c i0 i1 i2 o0 o1 o2 : Nat) (ri ro : List Nat)
    (v0 v1 v2 w0 w1 w2 : Int) (hlen : p.length = [a, b, c])
    (hi : p.istride = i0 :: i1 :: i2 :: ri) (ho : p.ostride = o0 :: o1 :: o2 :: ro)
    (hv : p.ll_inembed = [v0, v1, v2]) (hw : p.ll_onembed = [w0, w1, w2])
    (hi1 : i1 ≠ 0) (hi2 : i2 ≠ 0) (ho1 : o1 ≠ 0) (ho2 : o2 ≠ 0) :
    embed_switch p = some (some { p with
      ll_inembed := [toLL (Int.ofNat i2), toLL (Int.ofNat (i0 / i1)), toLL (Int.ofNat (i1 / i2))]
      ll_onembed :=
        [toLL (Int.ofNat o2), toLL (Int.ofNat (o0 / o1)), toLL (Int.ofNat (o1 / o2))] }) := by
  simp [embed_switch, dim, hlen, embed_case3, embed_case2, embed_case1, hi, ho, hv, hw, setAt,
    udiv, hi1, hi2, ho1, ho2]

/-- The copy loop in dimension 1. -/
theorem copy_loop_dim1 (p : hipfft_params) (a : Nat)
    (x0 y0 z0 u0 e0 f0 : Int) (hlen : p.length = [a])
    (hx : p.int_length = [x0]) (hy : p.int_inembed = [y0])
    (hz : p.int_onembed = [z0]) (hu : p.ll_length = [u0])
    (he : p.ll_inembed = [e0]) (hf : p.ll_onembed = [f0]) :
    copy_loop p = some { p with
      ll_length := [toLL (Int.ofNat a)]
      int_length := [toInt32 (Int.ofNat a)]
      int_inembed := [toInt32 e0]
      int_onembed := [toInt32 f0] } := by
  simp [copy_loop, dim, hlen, List.range, List.range.loop, copy_step, hx, hy, hz, hu, he, hf, setAt]

/-- The copy loop in dimension 2. -/
theorem copy_loop_dim2 (p : hipfft_params) (a b : Nat)
    (x0 x1 y0 y1 z0 z1 u0 u1 e0 e1 f0 f1 : Int) (hlen : p.length = [a, b])
    (hx : p.int_length = [x0, x1]) (hy : p.int_inembed = [y0, y1])
    (hz : p.int_onembed = [z0, z1]) (hu : p.ll_length = [u0, u1])
    (he : p.ll_inembed = [e0, e1]) (hf : p.ll_onembed = [f0, f1]) :
    copy_loop p = some { p with
      ll_length := [toLL (Int.ofNat a), toLL (Int.ofNat b)]
      int_length := [toInt32 (Int.ofNat a), toInt32 (Int.ofNat b)]
      int_inembed := [toInt32 e0, toInt32 e1]
      int_onembed := [toInt32 f0, toInt32 f1] } := by
  simp [copy_loop, dim, hlen, List.range, List.range.loop, copy_step, hx, hy, hz, hu, he, hf, setAt]

/-- The copy loop in dimension 3. -/
theorem copy_loop_dim3 (p : hipfft_params) (a b c : Nat)
    (x0 x1 x2 y0 y1 y2 z0 z1 z2 u0 u1 u2 e0 e1 e2 f0 f1 f2 : Int) (hlen : p.length = [a, b, c])
    (hx : p.int_length = [x0, x1, x2]) (hy : p.int_inembed = [y0, y1, y2])
    (hz : p.int_onembed = [z0, z1, z2]) (hu : p.ll_length = [u0, u1, u2])
    (he : p.ll_inembed = [e0, e1, e2]) (hf : p.ll_onembed = [f0, f1, f2]) :
    copy_loop p = some { p with
      ll_length := [toLL (Int.ofNat a), toLL (Int.ofNat b), toLL (Int.ofNat c)]
      int_length := [toInt32 (Int.ofNat a), toInt32 (Int.ofNat b), toInt32 (Int.ofNat c)]
      int_inembed := [toInt32 e0, toInt32 e1, toInt32 e2]
      int_onembed := [toInt32 f0, toInt32 f1, toInt32 f2] } := by
  simp [copy_loop, dim, hlen, List.range, List.range.loop, copy_step, hx, hy, hz, hu, he, hf, setAt]

/-- The outcome of `setup_structs` in dimension 1 on defined strides. -/
theorem setup_structs_dim1 (p : hipfft_params) (t : hipfftType) (d : Int) (a i0 o0 : Nat)
    (ri ro : List Nat) (hsel : select_type p.transform_type p.precision = some (t, d))
    (hlen : p.length = [a]) (hi : p.istride = i0 :: ri) (ho : p.ostride = o0 :: ro) :
    ∃ p1, setup_structs p = Res.ret fft_status_success p1 ∧
      p1.tofft_params = p.tofft_params ∧ p1.plan = p.plan ∧
      p1.hipfft_transform_type = t ∧ p1.direction = d ∧
      p1.ll_length = [toLL (Int.ofNat a)] ∧
      p1.int_length = [toInt32 (Int.ofNat a)] ∧
      p1.ll_inembed = [toLL (Int.ofNat i0)] ∧
      p1.int_inembed = [toInt32 (toLL (Int.ofNat i0))] ∧
      p1.ll_onembed = [toLL (Int.ofNat o0)] ∧
      p1.int_onembed = [toInt32 (toLL (Int.ofNat o0))] := by
  have hd : dim p.tofft_params = 1 := by simp [dim, hlen]
  obtain ⟨x0, hx⟩ := List.length_eq_one.mp (resize_length p.int_length 1)
  obtain ⟨y0, hy⟩ := List.length_eq_one.mp (resize_length p.int_inembed 1)
  obtain ⟨z0, hz⟩ := List.length_eq_one.mp (resize_length p.int_onembed 1)
  obtain ⟨u0, hu⟩ := List.length_eq_one.mp (resize_length p.ll_length 1)
  obtain ⟨v0, hv⟩ := List.length_eq_one.mp (resize_length p.ll_inembed 1)
  obtain ⟨w0, hw⟩ := List.length_eq_one.mp (resize_length p.ll_onembed 1)
  rw [← hd] at hx hy hz hu hv hw
  have hE := embed_switch_dim1
    (resize_all { p with hipfft_transform_type := t, direction := d })
    a i0 o0 ri ro v0 w0 hlen hi ho hv hw
  have hL := copy_loop_dim1
    { resize_all { p with hipfft_transform_type := t, direction := d } with
      ll_inembed := [toLL (Int.ofNat i0)]
      ll_onembed := [toLL (Int.ofNat o0)] }
    a x0 y0 z0 u0 _ _ hlen hx hy hz hu rfl rfl
  refine ⟨{ resize_all { p with hipfft_transform_type := t, direction := d } with
      ll_inembed := [toLL (Int.ofNat i0)]
      ll_onembed := [toLL (Int.ofNat o0)]
      ll_length := [toLL (Int.ofNat a)]
      int_length := [toInt32 (Int.ofNat a)]
      int_inembed := [toInt32 (toLL (Int.ofNat i0))]
      int_onembed := [toInt32 (toLL (Int.ofNat o0))] },
    ?_, rfl, rfl, rfl, rfl, rfl, rfl, rfl, rfl, rfl, rfl⟩
  rw [setup_structs]
  simp only [hsel, hE, hL, status_of_success]

/-- The outcome of `setup_structs` in dimension 2 on defined strides. -/
theorem setup_structs_dim2 (p : hipfft_params) (t : hipfftType) (d : Int) (a b i0 i1 o0 o1 : Nat)
    (ri ro : List Nat) (hsel : select_type p.transform_type p.precision = some (t, d))
    (hlen : p.length = [a, b]) (hi : p.istride = i0 :: i1 :: ri) (ho : p.ostride = o0 :: o1 :: ro)
    (hi1 : i1 ≠ 0) (ho1 : o1 ≠ 0) :
    ∃ p1, setup_structs p = Res.ret fft_status_success p1 ∧
      p1.tofft_params = p.tofft_params ∧ p1.plan = p.plan ∧
      p1.hipfft_transform_type = t ∧ p1.direction = d ∧
      p1.ll_length = [toLL (Int.ofNat a), toLL (Int.ofNat b)] ∧
      p1.int_length = [toInt32 (Int.ofNat a), toInt32 (Int.ofNat b)] ∧
      p1.ll_inembed = [toLL (Int.ofNat i1), toLL (Int.ofNat (i0 / i1))] ∧
      p1.int_inembed = [toInt32 (toLL (Int.ofNat i1)), toInt32 (toLL (Int.ofNat (i0 / i1)))] ∧
      p1.ll_onembed = [toLL (Int.ofNat o1), toLL (Int.ofNat (o0 / o1))] ∧
      p1.int_onembed = [toInt32 (toLL (Int.ofNat o1)), toInt32 (toLL (Int.ofNat (o0 / o1)))] := by
  have hd : dim p.tofft_params = 2 := by simp [dim, hlen]
  obtain ⟨x0, x1, hx⟩ := List.length_eq_two.mp (resize_length p.int_length 2)
  obtain ⟨y0, y1, hy⟩ := List.length_eq_two.mp (resize_length p.int_inembed 2)
  obtain ⟨z0, z1, hz⟩ := List.length_eq_two.mp (resize_length p.int_onembed 2)
  obtain ⟨u0, u1, hu⟩ := List.length_eq_two.mp (resize_length p.ll_length 2)
  obtain ⟨v0, v1, hv⟩ := List.length_eq_two.mp (resize_length p.ll_inembed 2)
  obtain ⟨w0, w1, hw⟩ := List.length_eq_two.mp (resize_length p.ll_onembed 2)
  rw [← hd] at hx hy hz hu hv hw
  have hE := embed_switch_dim2
    (resize_all { p with hipfft_transform_type := t, direction := d })
    a b i0 i1 o0 o1 ri ro v0 v1 w0 w1 hlen hi ho hv hw hi1 ho1
  have hL := copy_loop_dim2
    { resize_all { p with hipfft_transform_type := t, direction := d } with
      ll_inembed := [toLL (Int.ofNat i1), toLL (Int.ofNat (i0 / i1))]
      ll_onembed := [toLL (Int.ofNat o1), toLL (Int.ofNat (o0 / o1))] }
    a b x0 x1 y0 y1 z0 z1 u0 u1 _ _ _ _ hlen hx hy hz hu rfl rfl
  refine ⟨{ resize_all { p with hipfft_transform_type := t, direction := d } with
      ll_inembed := [toLL (Int.ofNat i1), toLL (Int.ofNat (i0 / i1))]
      ll_onembed := [toLL (Int.ofNat o1), toLL (Int.ofNat (o0 / o1))]
      ll_length := [toLL (Int.ofNat a), toLL (Int.ofNat b)]
      int_length := [toInt32 (Int.ofNat a), toInt32 (Int.ofNat b)]
      int_inembed := [toInt32 (toLL (Int.ofNat i1)), toInt32 (toLL (Int.ofNat (i0 / i1)))]
      int_onembed := [toInt32 (toLL (Int.ofNat o1)), toInt32 (toLL (Int.ofNat (o0 / o1)))] },
    ?_, rfl, rfl, rfl, rfl, rfl, rfl, rfl, rfl, rfl, rfl⟩
  rw [setup_structs]
  simp only [hsel, hE, hL, status_of_success]

/-- The outcome of `setup_structs` in dimension 3 on defined strides. -/
theorem setup_structs_dim3 (p : hipfft_params) (t : hipfftType) (d : Int)
    (a b c i0 i1 i2 o0 o1 o2 : Nat) (ri ro : List Nat)
    (hsel : select_type p.transform_type p.precision = some (t, d))
    (hlen : p.length = [a, b, c]) (hi : p.istride = i0 :: i1 :: i2 :: ri)
    (ho : p.ostride = o0 :: o1 :: o2 :: ro)
    (hi1 : i1 ≠ 0) (hi2 : i2 ≠ 0) (ho1 : o1 ≠ 0) (ho2 : o2 ≠ 0) :
    ∃ p1, setup_structs p = Res.ret fft_status_success p1 ∧
      p1.tofft_params = p.tofft_params ∧ p1.plan = p.plan ∧
      p1.hipfft_transform_type = t ∧ p1.direction = d ∧
      p1.ll_length = [toLL (Int.ofNat a), toLL (Int.ofNat b), toLL (Int.ofNat c)] ∧
      p1.int_length = [toInt32 (Int.ofNat a), toInt32 (Int.ofNat b), toInt32 (Int.ofNat c)] ∧
      p1.ll_inembed =
        [toLL (Int.ofNat i2), toLL (Int.ofNat (i0 / i1)), toLL (Int.ofNat (i1 / i2))] ∧
      p1.int_inembed = [toInt32 (toLL (Int.ofNat i2)), toInt32 (toLL (Int.ofNat (i0 / i1))),
        toInt32 (toLL (Int.ofNat (i1 / i2)))] ∧
      p1.ll_onembed =
        [toLL (Int.ofNat o2), toLL (Int.ofNat (o0 / o1)), toLL (Int.ofNat (o1 / o2))] ∧
      p1.int_onembed = [toInt32 (toLL (Int.ofNat o2)), toInt32 (toLL (Int.ofNat (o0 / o1))),
        toInt32 (toLL (Int.ofNat (o1 / o2)))] := by
  have hd : dim p.tofft_params = 3 := by simp [dim, hlen]
  obtain ⟨x0, x1, x2, hx⟩ := List.length_eq_three.mp (resize_length p.int_length 3)
  obtain ⟨y0, y1, y2, hy⟩ := List.length_eq_three.mp (resize_length p.int_inembed 3)
  obtain ⟨z0, z1, z2, hz⟩ := List.length_eq_three.mp (resize_length p.int_onembed 3)
  obtain ⟨u0, u1, u2, hu⟩ := List.length_eq_three.mp (resize_length p.ll_length 3)
  obtain ⟨v0, v1, v2, hv⟩ := List.length_eq_three.mp (resize_length p.ll_inembed 3)
  obtain ⟨w0, w1, w2, hw⟩ := List.length_eq_three.mp (resize_length p.ll_onembed 3)
  rw [← hd] at hx hy hz hu hv hw
  have hE := embed_switch_dim3
    (resize_all { p with hipfft_transform_type := t, direction := d })
    a b c i0 i1 i2 o0 o1 o2 ri ro v0 v1 v2 w0 w1 w2 hlen hi ho hv hw hi1 hi2 ho1 ho2
  have hL := copy_loop_dim3
    { resize_all { p with hipfft_transform_type := t, direction := d } with
      ll_inembed := [toLL (Int.ofNat i2), toLL (Int.ofNat (i0 / i1)), toLL (Int.ofNat (i1 / i2))]
      ll_onembed :=
        [toLL (Int.ofNat o2), toLL (Int.ofNat (o0 / o1)), toLL (Int.ofNat (o1 / o2))] }
    a b c x0 x1 x2 y0 y1 y2 z0 z1 z2 u0 u1 u2 _ _ _ _ _ _ hlen hx hy hz hu rfl rfl
  refine ⟨{ resize_all { p with hipfft_transform_type := t, direction := d } with
      ll_inembed := [toLL (Int.ofNat i2), toLL (Int.ofNat (i0 / i1)), toLL (Int.ofNat (i1 / i2))]
      ll_onembed := [toLL (Int.ofNat o2), toLL (Int.ofNat (o0 / o1)), toLL (Int.ofNat (o1 / o2))]
      ll_length := [toLL (Int.ofNat a), toLL (Int.ofNat b), toLL (Int.ofNat c)]
      int_length := [toInt32 (Int.ofNat a), toInt32 (Int.ofNat b), toInt32 (Int.ofNat c)]
      int_inembed := [toInt32 (toLL (Int.ofNat i2)), toInt32 (toLL (Int.ofNat (i0 / i1))),
        toInt32 (toLL (Int.ofNat (i1 / i2)))]
      int_onembed := [toInt32 (toLL (Int.ofNat o2)), toInt32 (toLL (Int.ofNat (o0 / o1))),
        toInt32 (toLL (Int.ofNat (o1 / o2)))] },
    ?_, rfl, rfl, rfl, rfl, rfl, rfl, rfl, rfl, rfl, rfl⟩
  rw [setup_structs]
  simp only [hsel, hE, hL, status_of_success]


/-- Defined strides in dimension 1: at least one entry. -/
theorem strides_defined_one (s : List Nat) :
    strides_defined s 1 ↔ ∃ i0 r, s = i0 :: r := by
  unfold strides_defined
  constructor
  · rintro ⟨h, _⟩
    rcases s with _ | ⟨i0, r⟩
    · simp at h
    · exact ⟨i0, r, rfl⟩
  · rintro ⟨i0, r, rfl⟩
    refine ⟨by simp, fun i hi hpos => ?_⟩
    omega

/-- Defined strides in dimension 2: two entries, the second not zero. -/
theorem strides_defined_two (s : List Nat) :
    strides_defined s 2 ↔ ∃ i0 i1 r, s = i0 :: i1 :: r ∧ i1 ≠ 0 := by
  unfold strides_defined
  constructor
  · rintro ⟨h, h2⟩
    rcases s with _ | ⟨i0, _ | ⟨i1, r⟩⟩
    · simp at h
    · simp at h
    · exact ⟨i0, i1, r, rfl, by simpa using h2 1 (by omega) (by omega)⟩
  · rintro ⟨i0, i1, r, rfl, h1⟩
    refine ⟨by simp, fun i hi hpos => ?_⟩
    have : i = 1 := by omega
    subst this
    simpa using h1

/-- Defined strides in dimension 3: three entries, the second and third not zero. -/
theorem strides_defined_three (s : List Nat) :
    strides_defined s 3 ↔ ∃ i0 i1 i2 r, s = i0 :: i1 :: i2 :: r ∧ i1 ≠ 0 ∧ i2 ≠ 0 := by
  unfold strides_defined
  constructor
  · rintro ⟨h, h2⟩
    rcases s with _ | ⟨i0, _ | ⟨i1, _ | ⟨i2, r⟩⟩⟩
    · simp at h
    · simp at h
    · simp at h
    · exact ⟨i0, i1, i2, r, rfl, by simpa using h2 1 (by omega) (by omega),
        by simpa using h2 2 (by omega) (by omega)⟩
  · rintro ⟨i0, i1, i2, r, rfl, h1, h2⟩
    refine ⟨by simp, fun i hi hpos => ?_⟩
    have : i = 1 ∨ i = 2 := by omega
    rcases this with h | h <;> subst h
    · simpa using h1
    · simpa using h2

/-- The second `switch` in dimension 1 is not defined on other strides. -/
theorem embed_switch_dim1_bad (p : hipfft_params) (a : Nat) (v0 w0 : Int)
    (hlen : p.length = [a]) (hv : p.ll_inembed = [v0]) (hw : p.ll_onembed = [w0])
    (hbad : ¬ (strides_defined p.istride 1 ∧ strides_defined p.ostride 1)) :
    embed_switch p = some none := by
  rw [strides_defined_one, strides_defined_one] at hbad
  rcases hi : p.istride with _ | ⟨i0, ri⟩
  · simp [embed_switch, dim, hlen, embed_case1, hi, hv, hw, setAt]
  · rcases ho : p.ostride with _ | ⟨o0, ro⟩
    · simp [embed_switch, dim, hlen, embed_case1, hi, ho, hv, hw, setAt]
    · exact absurd ⟨⟨i0, ri, hi⟩, ⟨o0, ro, ho⟩⟩ hbad

/-- The second `switch` in dimension 2 is not defined on other strides. -/
theorem embed_switch_dim2_bad (p : hipfft_params) (a b : Nat) (v0 v1 w0 w1 : Int)
    (hlen : p.length = [a, b]) (hv : p.ll_inembed = [v0, v1]) (hw : p.ll_onembed = [w0, w1])
    (hbad : ¬ (strides_defined p.istride 2 ∧ strides_defined p.ostride 2)) :
    embed_switch p = some none := by
  rw [strides_defined_two, strides_defined_two] at hbad
  rcases hi : p.istride with _ | ⟨i0, _ | ⟨i1, ri⟩⟩
  · simp [embed_switch, dim, hlen, embed_case2, hi, hv, hw, setAt, udiv]
  · simp [embed_switch, dim, hlen, embed_case2, hi, hv, hw, setAt, udiv]
  · by_cases h1 : i1 = 0
    · simp [embed_switch, dim, hlen, embed_case2, hi, hv, hw, setAt, udiv, h1]
    · rcases ho : p.ostride with _ | ⟨o0, _ | ⟨o1, ro⟩⟩
      · simp [embed_switch, dim, hlen, embed_case2, hi, ho, hv, hw, setAt, udiv, h1]
      · simp [embed_switch, dim, hlen, embed_case2, hi, ho, hv, hw, setAt, udiv, h1]
      · by_cases h2 : o1 = 0
        · simp [embed_switch, dim, hlen, embed_case2, hi, ho, hv, hw, setAt, udiv, h1, h2]
        · exact absurd ⟨⟨i0, i1, ri, hi, h1⟩, ⟨o0, o1, ro, ho, h2⟩⟩ hbad

/-- The second `switch` in dimension 3 is not defined on other strides. -/
theorem embed_switch_dim3_bad (p : hipfft_params) (a b c : Nat) (v0 v1 v2 w0 w1 w2 : Int)
    (hlen : p.length = [a, b, c]) (hv : p.ll_inembed = [v0, v1, v2])
    (hw : p.ll_onembed = [w0, w1, w2])
    (hbad : ¬ (strides_defined p.istride 3 ∧ strides_defined p.ostride 3)) :
    embed_switch p = some none := by
  rw [strides_defined_three, strides_defined_three] at hbad
  rcases hi : p.istride with _ | ⟨i0, _ | ⟨i1, _ | ⟨i2, ri⟩⟩⟩
  · simp [embed_switch, dim, hlen, embed_case3, hi, hv, hw, setAt, udiv]
  · simp [embed_switch, dim, hlen, embed_case3, hi, hv, hw, setAt, udiv]
  · simp [embed_switch, dim, hlen, embed_case3, hi, hv, hw, setAt, udiv]
  · by_cases h2 : i2 = 0
    · simp [embed_switch, dim, hlen, embed_case3, hi, hv, hw, setAt, udiv, h2]
    · rcases ho : p.ostride with _ | ⟨o0, _ | ⟨o1, _ | ⟨o2, ro⟩⟩⟩
      · simp [embed_switch, dim, hlen, embed_case3, hi, ho, hv, hw, setAt, udiv, h2]
      · simp [embed_switch, dim, hlen, embed_case3, hi, ho, hv, hw, setAt, udiv, h2]
      · simp [embed_switch, dim, hlen, embed_case3, hi, ho, hv, hw, setAt, udiv, h2]
      · by_cases k2 : o2 = 0
        · simp [embed_switch, dim, hlen, embed_case3, hi, ho, hv, hw, setAt, udiv, h2, k2]
        · by_cases h1 : i1 = 0
          · simp [embed_switch, dim, hlen, embed_case3, embed_case2, hi, ho, hv, hw, setAt,
              udiv, h2, k2, h1]
          · by_cases k1 : o1 = 0
            · simp [embed_switch, dim, hlen, embed_case3, embed_case2, hi, ho, hv, hw, setAt,
                udiv, h2, k2, h1, k1]
            · exact absurd ⟨⟨i0, i1, i2, ri, hi, h1, h2⟩, ⟨o0, o1, o2, ro, ho, k1, k2⟩⟩ hbad

/-- On strides for which it is not defined, `setup_structs` has no outcome. -/
theorem setup_structs_undefined (p : hipfft_params) (t : hipfftType) (d : Int)
    (hsel : select_type p.transform_type p.precision = some (t, d))
    (hdim : 1 ≤ dim p.tofft_params ∧ dim p.tofft_params ≤ 3)
    (hbad : ¬ (strides_defined p.istride (dim p.tofft_params) ∧
      strides_defined p.ostride (dim p.tofft_params))) :
    setup_structs p = Res.undefined := by
  have hE : embed_switch (resize_all { p with hipfft_transform_type := t, direction := d }) =
      some none := by
    have h3 : dim p.tofft_params = 1 ∨ dim p.tofft_params = 2 ∨ dim p.tofft_params = 3 := by
      omega
    rcases h3 with h | h | h
    · obtain ⟨a, hlen⟩ := List.length_eq_one.mp h
      obtain ⟨v0, hv⟩ := List.length_eq_one.mp (resize_length p.ll_inembed 1)
      obtain ⟨w0, hw⟩ := List.length_eq_one.mp (resize_length p.ll_onembed 1)
      rw [h] at hbad
      rw [← h] at hv hw
      exact embed_switch_dim1_bad _ a v0 w0 hlen hv hw hbad
    · obtain ⟨a, b, hlen⟩ := List.length_eq_two.mp h
      obtain ⟨v0, v1, hv⟩ := List.length_eq_two.mp (resize_length p.ll_inembed 2)
      obtain ⟨w0, w1, hw⟩ := List.length_eq_two.mp (resize_length p.ll_onembed 2)
      rw [h] at hbad
      rw [← h] at hv hw
      exact embed_switch_dim2_bad _ a b v0 v1 w0 w1 hlen hv hw hbad
    · obtain ⟨a, b, c, hlen⟩ := List.length_eq_three.mp h
      obtain ⟨v0, v1, v2, hv⟩ := List.length_eq_three.mp (resize_length p.ll_inembed 3)
      obtain ⟨w0, w1, w2, hw⟩ := List.length_eq_three.mp (resize_length p.ll_onembed 3)
      rw [h] at hbad
      rw [← h] at hv hw
      exact embed_switch_dim3_bad _ a b c v0 v1 v2 w0 w1 w2 hlen hv hw hbad
  rw [setup_structs]
  simp only [hsel, hE]

/-- The second `switch` takes its `default` label for a dimension other
than 1, 2 and 3. -/
theorem embed_switch_none (p : hipfft_params)
    (hdim : ¬ (1 ≤ dim p.tofft_params ∧ dim p.tofft_params ≤ 3)) : embed_switch p = none := by
  have h1 : dim p.tofft_params ≠ 1 := by omega
  have h2 : dim p.tofft_params ≠ 2 := by omega
  have h3 : dim p.tofft_params ≠ 3 := by omega
  unfold embed_switch
  rw [if_neg h3, if_neg h2, if_neg h1]

/-- On defined strides and for a dimension from 1 to 3, `setup_structs`
returns success with the selected type and direction, the base fields and the
plan unchanged, and six arrays of size `dim()`. -/
theorem setup_structs_defined (p : hipfft_params) (t : hipfftType) (d : Int)
    (hsel : select_type p.transform_type p.precision = some (t, d))
    (hdim : 1 ≤ dim p.tofft_params ∧ dim p.tofft_params ≤ 3)
    (hi : strides_defined p.istride (dim p.tofft_params))
    (ho : strides_defined p.ostride (dim p.tofft_params)) :
    ∃ p1, setup_structs p = Res.ret fft_status_success p1 ∧
      p1.tofft_params = p.tofft_params ∧ p1.plan = p.plan ∧
      p1.hipfft_transform_type = t ∧ p1.direction = d ∧
      p1.ll_length.length = dim p.tofft_params ∧ p1.int_length.length = dim p.tofft_params ∧
      p1.ll_inembed.length = dim p.tofft_params ∧ p1.int_inembed.length = dim p.tofft_params ∧
      p1.ll_onembed.length = dim p.tofft_params ∧ p1.int_onembed.length = dim p.tofft_params := by
  have h3 : dim p.tofft_params = 1 ∨ dim p.tofft_params = 2 ∨ dim p.tofft_params = 3 := by omega
  rcases h3 with h | h | h
  · obtain ⟨a, hlen⟩ := List.length_eq_one.mp h
    rw [h, strides_defined_one] at hi ho
    obtain ⟨i0, ri, hi⟩ := hi
    obtain ⟨o0, ro, ho⟩ := ho
    obtain ⟨p1, h1, h2, h3, h4, h5, h6, h7, h8, h9, h10, h11⟩ :=
      setup_structs_dim1 p t d a i0 o0 ri ro hsel hlen hi ho
    refine ⟨p1, h1, h2, h3, h4, h5, ?_⟩
    rw [h6, h7, h8, h9, h10, h11, h]
    simp
  · obtain ⟨a, b, hlen⟩ := List.length_eq_two.mp h
    rw [h, strides_defined_two] at hi ho
    obtain ⟨i0, i1, ri, hi, hi1⟩ := hi
    obtain ⟨o0, o1, ro, ho, ho1⟩ := ho
    obtain ⟨p1, h1, h2, h3, h4, h5, h6, h7, h8, h9, h10, h11⟩ :=
      setup_structs_dim2 p t d a b i0 i1 o0 o1 ri ro hsel hlen hi ho hi1 ho1
    refine ⟨p1, h1, h2, h3, h4, h5, ?_⟩
    rw [h6, h7, h8, h9, h10, h11, h]
    simp
  · obtain ⟨a, b, c, hlen⟩ := List.length_eq_three.mp h
    rw [h, strides_defined_three] at hi ho
    obtain ⟨i0, i1, i2, ri, hi, hi1, hi2⟩ := hi
    obtain ⟨o0, o1, o2, ro, ho, ho1, ho2⟩ := ho
    obtain ⟨p1, h1, h2, h3, h4, h5, h6, h7, h8, h9, h10, h11⟩ :=
      setup_structs_dim3 p t d a b c i0 i1 i2 o0 o1 o2 ri ro hsel hlen hi ho hi1 hi2 ho1 ho2
    refine ⟨p1, h1, h2, h3, h4, h5, ?_⟩
    rw [h6, h7, h8, h9, h10, h11, h]
    simp

/-- The first `switch` of `setup_structs` on the transform types 0 to 3. -/
theorem select_type_known (tt : Int) (prec : fft_precision)
    (htt : tt = 0 ∨ tt = 1 ∨ tt = 2 ∨ tt = 3) :
    select_type tt prec = some
      (if prec = fft_precision_single then
          (if tt = 0 ∨ tt = 1 then HIPFFT_C2C else if tt = 2 then HIPFFT_R2C else HIPFFT_C2R)
        else (if tt = 0 ∨ tt = 1 then HIPFFT_Z2Z else if tt = 2 then HIPFFT_D2Z else HIPFFT_Z2D),
        if tt = 0 ∨ tt = 2 then HIPFFT_FORWARD else HIPFFT_BACKWARD) := by
  rcases htt with h | h | h | h <;> subst h <;>
    by_cases hp : prec = fft_precision_single <;> simp [select_type, hp]

/-- The first `switch` of `setup_structs` takes its `default` label exactly
for a transform type other than 0, 1, 2 and 3. -/
theorem select_type_none (tt : Int) (prec : fft_precision) :
    select_type tt prec = none ↔ ¬ (tt = 0 ∨ tt = 1 ∨ tt = 2 ∨ tt = 3) := by
  constructor
  · intro h htt
    rw [select_type_known tt prec htt] at h
    exact absurd h (by simp)
  · intro h
    simp only [not_or] at h
    simp [select_type, h.1, h.2.1, h.2.2.1, h.2.2.2]


/-- What `setup_structs` leaves in the arrays on defined strides, for a
dimension `d` from 1 to 3: the lengths converted, entry 0 of the embeddings
the converted stride `d - 1`, entry `i` the converted quotient of the strides
`i - 1` and `i`, and the `int` embeddings the converted `long long` ones. -/
theorem setup_structs_arrays (p : hipfft_params) (t : hipfftType) (d : Int)
    (hsel : select_type p.transform_type p.precision = some (t, d))
    (hdim : 1 ≤ dim p.tofft_params ∧ dim p.tofft_params ≤ 3)
    (hi : strides_defined p.istride (dim p.tofft_params))
    (ho : strides_defined p.ostride (dim p.tofft_params)) :
    ∃ p1, setup_structs p = Res.ret fft_status_success p1 ∧
      p1.ll_length = p.length.map (fun x => toLL (Int.ofNat x)) ∧
      p1.int_length = p.length.map (fun x => toInt32 (Int.ofNat x)) ∧
      p1.int_inembed = p1.ll_inembed.map toInt32 ∧
      p1.int_onembed = p1.ll_onembed.map toInt32 ∧
      p1.ll_inembed.length = dim p.tofft_params ∧
      p1.ll_onembed.length = dim p.tofft_params ∧
      p1.ll_inembed[0]? = some (toLL (Int.ofNat (p.istride.getD (dim p.tofft_params - 1) 0))) ∧
      p1.ll_onembed[0]? = some (toLL (Int.ofNat (p.ostride.getD (dim p.tofft_params - 1) 0))) ∧
      (∀ i, 1 ≤ i → i < dim p.tofft_params →
        p1.ll_inembed[i]? =
          some (toLL (Int.ofNat (p.istride.getD (i - 1) 0 / p.istride.getD i 0)))) ∧
      (∀ i, 1 ≤ i → i < dim p.tofft_params →
        p1.ll_onembed[i]? =
          some (toLL (Int.ofNat (p.ostride.getD (i - 1) 0 / p.ostride.getD i 0)))) := by
  have h3 : dim p.tofft_params = 1 ∨ dim p.tofft_params = 2 ∨ dim p.tofft_params = 3 := by omega
  rcases h3 with h | h | h
  · obtain ⟨a, hlen⟩ := List.length_eq_one.mp h
    rw [h, strides_defined_one] at hi ho
    obtain ⟨i0, ri, hi⟩ := hi
    obtain ⟨o0, ro, ho⟩ := ho
    obtain ⟨p1, h1, _, _, _, _, h6, h7, h8, h9, h10, h11⟩ :=
      setup_structs_dim1 p t d a i0 o0 ri ro hsel hlen hi ho
    refine ⟨p1, h1, ?_⟩
    rw [h6, h7, h8, h9, h10, h11, h, hlen, hi, ho]
    refine ⟨?_, ?_, ?_, ?_, ?_, ?_, ?_, ?_, ?_, ?_⟩
    all_goals first
      | (intro i h1 h2; omega)
      | (simp only [List.getD_cons_zero, List.getD_cons_succ, List.getElem?_cons_zero,
        List.getElem?_cons_succ, Nat.reduceSub, List.map_cons, List.map_nil, List.length_cons,
        List.length_nil, Nat.reduceAdd])
  · obtain ⟨a, b, hlen⟩ := List.length_eq_two.mp h
    rw [h, strides_defined_two] at hi ho
    obtain ⟨i0, i1, ri, hi, hi1⟩ := hi
    obtain ⟨o0, o1, ro, ho, ho1⟩ := ho
    obtain ⟨p1, h1, _, _, _, _, h6, h7, h8, h9, h10, h11⟩ :=
      setup_structs_dim2 p t d a b i0 i1 o0 o1 ri ro hsel hlen hi ho hi1 ho1
    refine ⟨p1, h1, ?_⟩
    rw [h6, h7, h8, h9, h10, h11, h, hlen, hi, ho]
    refine ⟨?_, ?_, ?_, ?_, ?_, ?_, ?_, ?_, ?_, ?_⟩
    all_goals first
      | (intro i h1 h2
         have hi1 : i = 1 := by omega
         subst hi1
         simp only [List.getD_cons_zero, List.getD_cons_succ, List.getElem?_cons_zero,
           List.getElem?_cons_succ, Nat.reduceSub, List.map_cons, List.map_nil, List.length_cons,
           List.length_nil, Nat.reduceAdd])
      | (simp only [List.getD_cons_zero, List.getD_cons_succ, List.getElem?_cons_zero,
        List.getElem?_cons_succ, Nat.reduceSub, List.map_cons, List.map_nil, List.length_cons,
        List.length_nil, Nat.reduceAdd])
  · obtain ⟨a, b, c, hlen⟩ := List.length_eq_three.mp h
    rw [h, strides_defined_three] at hi ho
    obtain ⟨i0, i1, i2, ri, hi, hi1, hi2⟩ := hi
    obtain ⟨o0, o1, o2, ro, ho, ho1, ho2⟩ := ho
    obtain ⟨p1, h1, _, _, _, _, h6, h7, h8, h9, h10, h11⟩ :=
      setup_structs_dim3 p t d a b c i0 i1 i2 o0 o1 o2 ri ro hsel hlen hi ho hi1 hi2 ho1 ho2
    refine ⟨p1, h1, ?_⟩
    rw [h6, h7, h8, h9, h10, h11, h, hlen, hi, ho]
    refine ⟨?_, ?_, ?_, ?_, ?_, ?_, ?_, ?_, ?_, ?_⟩
    all_goals first
      | (intro i h1 h2
         have hi1 : i = 1 ∨ i = 2 := by omega
         rcases hi1 with hi1 | hi1 <;> subst hi1 <;>
         simp only [List.getD_cons_zero, List.getD_cons_succ, List.getElem?_cons_zero,
           List.getElem?_cons_succ, Nat.reduceSub, List.map_cons, List.map_nil, List.length_cons,
           List.length_nil, Nat.reduceAdd])
      | (simp only [List.getD_cons_zero, List.getD_cons_succ, List.getElem?_cons_zero,
        List.getElem?_cons_succ, Nat.reduceSub, List.map_cons, List.map_nil, List.length_cons,
        List.length_nil, Nat.reduceAdd])


/-- A value below `2^63` is unchanged by the conversion to `long long`. -/
theorem toLL_small (x : Nat) (h : x < 2 ^ 63) : toLL (Int.ofNat x) = Int.ofNat x := by
  unfold toLL
  have h0 : (0 : Int) ≤ Int.ofNat x := Int.ofNat_nonneg x
  have h1 : Int.ofNat x < 9223372036854775808 := by
    have : x < 9223372036854775808 := by norm_num at h; exact h
    simp only [Int.ofNat_eq_coe]
    omega
  norm_num
  rw [Int.emod_eq_of_lt (by omega) (by omega)]
  omega

/-- A value from 0 to below `2^31` is unchanged by the conversion to `int`. -/
theorem toInt32_small (v : Int) (h0 : 0 ≤ v) (h : v < 2 ^ 31) : toInt32 v = v := by
  unfold toInt32
  norm_num at h ⊢
  rw [Int.emod_eq_of_lt (by omega) (by omega)]
  omega


/-- Strides built from an innermost stride `s` and embed sizes `n`, all
positive, are defined for `setup_structs`; the last of them is `s` and the
quotient of two neighbours is the embed size. -/
theorem stride_facts (st : List Nat) (d s : Nat) (n : Nat → Nat) (hd : 1 ≤ d ∧ d ≤ 3)
    (hs : st[d - 1]? = some s) (hspos : 0 < s)
    (hn : ∀ i, i + 1 < d → 0 < n (i + 1) ∧ st[i]? = some (st.getD (i + 1) 0 * n (i + 1))) :
    strides_defined st d ∧ st.getD (d - 1) 0 = s ∧
      ∀ i, 1 ≤ i → i < d → st.getD (i - 1) 0 / st.getD i 0 = n i := by
  have h3 : d = 1 ∨ d = 2 ∨ d = 3 := by omega
  rcases h3 with h | h | h <;> subst h
  · rcases st with _ | ⟨i0, r⟩
    · simp at hs
    · simp only [Nat.reduceSub, List.getElem?_cons_zero, Option.some.injEq] at hs
      subst hs
      refine ⟨(strides_defined_one _).mpr ⟨_, _, rfl⟩, rfl, ?_⟩
      intro i h1 h2
      omega
  · rcases st with _ | ⟨i0, _ | ⟨i1, r⟩⟩
    · simp at hs
    · simp at hs
    · simp only [Nat.reduceSub, List.getElem?_cons_succ, List.getElem?_cons_zero,
        Option.some.injEq] at hs
      subst hs
      have h0 := hn 0 (by omega)
      simp only [Nat.zero_add, List.getElem?_cons_zero, List.getD_cons_succ,
        List.getD_cons_zero, Option.some.injEq] at h0
      refine ⟨(strides_defined_two _).mpr ⟨_, _, _, rfl, by omega⟩, rfl, ?_⟩
      intro i h1 h2
      have hi : i = 1 := by omega
      subst hi
      simp only [Nat.reduceSub, List.getD_cons_succ, List.getD_cons_zero]
      rw [h0.2]
      exact Nat.mul_div_cancel_left _ hspos
  · rcases st with _ | ⟨i0, _ | ⟨i1, _ | ⟨i2, r⟩⟩⟩
    · simp at hs
    · simp at hs
    · simp at hs
    · simp only [Nat.reduceSub, List.getElem?_cons_succ, List.getElem?_cons_zero,
        Option.some.injEq] at hs
      subst hs
      have h0 := hn 0 (by omega)
      have h1 := hn 1 (by omega)
      simp only [Nat.zero_add, Nat.reduceAdd, List.getElem?_cons_zero, List.getElem?_cons_succ,
        List.getD_cons_succ, List.getD_cons_zero, Option.some.injEq] at h0 h1
      have hi1 : 0 < i1 := by rw [h1.2]; exact Nat.mul_pos hspos h1.1
      refine ⟨(strides_defined_three _).mpr ⟨_, _, _, _, rfl, by omega, by omega⟩, rfl, ?_⟩
      intro i h1' h2
      have hi : i = 1 ∨ i = 2 := by omega
      rcases hi with hi | hi <;> subst hi
      · simp only [Nat.reduceSub, List.getD_cons_succ, List.getD_cons_zero]
        rw [h0.2]
        exact Nat.mul_div_cancel_left _ hi1
      · simp only [Nat.reduceSub, List.getD_cons_succ, List.getD_cons_zero]
        rw [h1.2]
        exact Nat.mul_div_cancel_left _ hspos

/-- C2: for every parameter set the vector `allowed_apis` has between 2 and
5 entries, `get_create_type` reads it in range and returns one of the five
enumerators; `create_plan` is `setup_structs` followed by exactly the
creation routine of that enumerator and the translation of its code, and it
never throws `no valid plan creation type`. -/
theorem get_create_type_selects_routine (B : fft_base) (p : fft_params) (V : Vendor)
    (w : World) :
    (2 ≤ (allowed_apis B p).length ∧ (allowed_apis B p).length ≤ 5) ∧
    B.hash (B.token p) % (allowed_apis B p).length < (allowed_apis B p).length ∧
    (∃ api : PlanCreateAPI,
      (allowed_apis B p)[B.hash (B.token p) % (allowed_apis B p).length]? = some api ∧
      get_create_type B p = some api.toInt) ∧
    (∃ pick : fft_params → PlanCreateAPI,
      (∀ q, get_create_type B q = some (pick q).toInt) ∧
      create_plan V B w =
        ((setup_structs w.obj).inWorld w).andThen fun _ w1 =>
          (creation_routine (pick w1.obj.tofft_params) V w1).andThen fun code w2 =>
            Res.ret (fft_status_from_hipfftparams code) w2) ∧
    (∀ w1, create_plan V B w ≠ Res.threw "no valid plan creation type" w1) := by
  have hpick : ∀ q, ∃ api : PlanCreateAPI, get_create_type B q = some api.toInt := fun q => by
    obtain ⟨api, _, _, h⟩ := get_create_type_eq B q
    exact ⟨api, h⟩
  choose pick hp using hpick
  have hcreate : create_plan V B w =
      ((setup_structs w.obj).inWorld w).andThen fun _ w1 =>
        (creation_routine (pick w1.obj.tofft_params) V w1).andThen fun code w2 =>
          Res.ret (fft_status_from_hipfftparams code) w2 := by
    unfold create_plan
    cases hs : setup_structs w.obj with
    | ret st p1 =>
      have hst := setup_structs_ret_success _ _ _ hs
      subst hst
      simp only [Res.inWorld, Res.andThen, ne_eq, not_true_eq_false, if_false, hp,
        create_switch_toInt]
    | threw msg p1 => simp only [Res.inWorld, Res.andThen]
    | undefined => simp only [Res.inWorld, Res.andThen]
  refine ⟨allowed_apis_length B p, ?_, ?_, ⟨pick, hp, hcreate⟩, ?_⟩
  · exact Nat.mod_lt _ (by have := (allowed_apis_length B p).1; omega)
  · obtain ⟨api, _, h1, h2⟩ := get_create_type_eq B p
    exact ⟨api, h1, h2⟩
  · intro w1 h
    rw [hcreate] at h
    cases hs : setup_structs w.obj with
    | ret st p1 =>
      rw [hs] at h
      simp only [Res.inWorld, Res.andThen] at h
      cases hr : creation_routine (pick p1.tofft_params) V { w with obj := p1 } with
      | ret code w2 => rw [hr] at h; simp at h
      | threw msg w2 =>
        have := creation_routine_threw_msg _ _ _ _ _ hr
        rw [hr] at h
        simp only [Res.threw.injEq] at h
        rw [this] at h
        exact absurd h.1 (by decide)
      | undefined => rw [hr] at h; simp at h
    | threw msg p1 =>
      have := setup_structs_threw_msg _ _ _ hs
      rw [hs] at h
      simp only [Res.inWorld, Res.andThen, Res.threw.injEq] at h
      rcases this with h1 | h1 <;> rw [h1] at h <;> exact absurd h.1 (by decide)
    | undefined =>
      rw [hs] at h
      simp [Res.inWorld, Res.andThen] at h

/-- C3: if `get_create_type` returns `PLAN_Nd` or `CREATE_MAKE_PLAN_Nd` then
`is_contiguous()` holds and `nbatch <= 1` or `dim() == 1`; and every 2D or
3D vendor call that `create_plan` makes is made with `nbatch <= 1`. -/
theorem non_many_api_only_contiguous (B : fft_base) (p : fft_params) (V : Vendor) (w : World) :
    (get_create_type B p = some PLAN_Nd.toInt ∨
        get_create_type B p = some CREATE_MAKE_PLAN_Nd.toInt →
      is_contiguous B p = true ∧ (p.nbatch ≤ 1 ∨ dim p = 1)) ∧
    (∀ c ∈ new_calls w (create_plan V B w), is_plan_2d3d c = true → w.obj.nbatch ≤ 1) := by
  constructor
  · intro h
    rcases h with h | h
    · exact non_many_allowed B p _ (get_create_type_mem B p _ h) (Or.inl rfl)
    · exact non_many_allowed B p _ (get_create_type_mem B p _ h) (Or.inr rfl)
  · intro c hc h2d
    rcases create_plan_calls V B w with h | ⟨api, w1, hbase, htr, hmem, _, hcalls⟩
    · rw [h] at hc
      exact absurd hc (List.not_mem_nil c)
    · rw [hcalls] at hc
      have key : (api = PLAN_Nd ∨ api = CREATE_MAKE_PLAN_Nd) ∧ dim w1.obj.tofft_params ≠ 1 := by
        cases api
        · rcases combined_routine_calls PLAN_Nd V w1 (Or.inl rfl) with h | ⟨c1, h, _, h3⟩
          · rw [h] at hc; exact absurd hc (List.not_mem_nil c)
          · rw [h, List.mem_singleton] at hc
            subst hc
            exact ⟨Or.inl rfl, (h3 h2d).2⟩
        · rcases combined_routine_calls PLAN_MANY V w1 (Or.inr rfl) with h | ⟨c1, h, _, h3⟩
          · rw [h] at hc; exact absurd hc (List.not_mem_nil c)
          · rw [h, List.mem_singleton] at hc
            subst hc
            exact absurd (h3 h2d).1 (by decide)
        · rcases make_routine_calls CREATE_MAKE_PLAN_Nd V w1 (Or.inl rfl)
            with h | ⟨rest, h, _, _, h3⟩
          · rw [h] at hc; exact absurd hc (List.not_mem_nil c)
          · rw [h, List.mem_append] at hc
            rcases hc with hc | hc
            · have := (create_calls_kind _ _ _ c hc rfl).1
              rw [this] at h2d
              exact absurd h2d (by decide)
            · exact ⟨Or.inr rfl, ((h3 c hc).2 h2d).2⟩
        · rcases make_routine_calls CREATE_MAKE_PLAN_MANY V w1 (Or.inr (Or.inl rfl))
            with h | ⟨rest, h, _, _, h3⟩
          · rw [h] at hc; exact absurd hc (List.not_mem_nil c)
          · rw [h, List.mem_append] at hc
            rcases hc with hc | hc
            · have := (create_calls_kind _ _ _ c hc rfl).1
              rw [this] at h2d
              exact absurd h2d (by decide)
            · exact absurd ((h3 c hc).2 h2d).1 (by decide)
        · rcases make_routine_calls CREATE_MAKE_PLAN_MANY64 V w1 (Or.inr (Or.inr rfl))
            with h | ⟨rest, h, _, _, h3⟩
          · rw [h] at hc; exact absurd hc (List.not_mem_nil c)
          · rw [h, List.mem_append] at hc
            rcases hc with hc | hc
            · have := (create_calls_kind _ _ _ c hc rfl).1
              rw [this] at h2d
              exact absurd h2d (by decide)
            · exact absurd ((h3 c hc).2 h2d).1 (by decide)
      have h1 := (non_many_allowed B w.obj.tofft_params api hmem key.1).2
      rw [hbase] at key
      rcases h1 with h1 | h1
      · exact h1
      · exact absurd h1 key.2

/-- A call that makes a plan or a combined call is not a call to
`hipfftExtPlanScaleFactor`. -/
theorem not_scale_call (c : VendorCall)
    (h : is_make_call c = true ∨ is_combined_call c = true) : is_scale_call c = false := by
  cases c <;> first | rfl | (rcases h with h | h <;> simp [is_make_call, is_combined_call] at h)

/-- C6: for a transform type from 0 to 3, any precision and a dimension
from 1 to 3, `setup_structs` on defined strides returns with the direction
`HIPFFT_FORWARD` for the types 0 and 2 and `HIPFFT_BACKWARD` for 1 and 3, and
with the complex-to-complex vendor type for 0 and 1, real-to-complex for 2
and complex-to-real for 3, in single precision exactly when the precision is
`fft_precision_single` and in double precision otherwise; on other strides
the C++ has no defined behaviour. -/
theorem setup_structs_type_direction (p : hipfft_params)
    (htt : p.transform_type = 0 ∨ p.transform_type = 1 ∨ p.transform_type = 2 ∨
      p.transform_type = 3)
    (hdim : 1 ≤ dim p.tofft_params ∧ dim p.tofft_params ≤ 3) :
    if strides_defined p.istride (dim p.tofft_params) ∧
        strides_defined p.ostride (dim p.tofft_params) then
      ∃ p1, setup_structs p = Res.ret fft_status_success p1 ∧
        p1.direction =
          (if p.transform_type = 0 ∨ p.transform_type = 2 then HIPFFT_FORWARD
            else HIPFFT_BACKWARD) ∧
        p1.hipfft_transform_type =
          (if p.precision = fft_precision_single then
            (if p.transform_type = 0 ∨ p.transform_type = 1 then HIPFFT_C2C
              else if p.transform_type = 2 then HIPFFT_R2C else HIPFFT_C2R)
          else
            (if p.transform_type = 0 ∨ p.transform_type = 1 then HIPFFT_Z2Z
              else if p.transform_type = 2 then HIPFFT_D2Z else HIPFFT_Z2D))
    else setup_structs p = Res.undefined := by
  have hsel := select_type_known p.transform_type p.precision htt
  by_cases hs : strides_defined p.istride (dim p.tofft_params) ∧
      strides_defined p.ostride (dim p.tofft_params)
  · rw [if_pos hs]
    obtain ⟨p1, h1, _, _, h4, h5, _⟩ := setup_structs_defined p _ _ hsel hdim hs.1 hs.2
    exact ⟨p1, h1, h5, h4⟩
  · rw [if_neg hs]
    exact setup_structs_undefined p _ _ hsel hdim hs

/-- Witness of C6 on the sample object: a single-precision complex forward
transform gets `HIPFFT_C2C` and `HIPFFT_FORWARD`. -/
theorem setup_structs_type_direction_witness :
    ∃ p1, setup_structs sample_object = Res.ret fft_status_success p1 ∧
      p1.direction = HIPFFT_FORWARD ∧ p1.hipfft_transform_type = HIPFFT_C2C := by
  have h := setup_structs_type_direction sample_object (Or.inl rfl) (by decide)
  rw [if_pos (by decide)] at h
  exact h

/-- C4: when `scale_factor != 1.0`, `get_create_type` returns one of the
three separate APIs, never `PLAN_Nd` or `PLAN_MANY`, and the vendor calls of
`create_plan` start with `hipfftCreate`; when that call succeeds the next
call is `hipfftExtPlanScaleFactor` on the created plan with the scale
factor, and only after it at most one call that makes the plan; when it
fails nothing follows. When `scale_factor == 1.0`, `create_plan` never calls
`hipfftExtPlanScaleFactor`. -/
theorem scaling_selects_separate_api (B : fft_base) (p : fft_params) (V : Vendor) (w : World) :
    (Double.ne p.scale_factor Double.one = true →
      (∃ api, (api = CREATE_MAKE_PLAN_Nd ∨ api = CREATE_MAKE_PLAN_MANY ∨
          api = CREATE_MAKE_PLAN_MANY64) ∧ get_create_type B p = some api.toInt) ∧
      get_create_type B p ≠ some PLAN_Nd.toInt ∧
      get_create_type B p ≠ some PLAN_MANY.toInt) ∧
    (Double.ne w.obj.scale_factor Double.one = true →
      new_calls w (create_plan V B w) = [] ∨
      ∃ h rest, new_calls w (create_plan V B w) = VendorCall.hipfftCreate h :: rest ∧
        ((V w.trace (VendorCall.hipfftCreate h)).code ≠ HIPFFT_SUCCESS → rest = []) ∧
        ((V w.trace (VendorCall.hipfftCreate h)).code = HIPFFT_SUCCESS →
          ∃ made, rest = VendorCall.hipfftExtPlanScaleFactor
              (V w.trace (VendorCall.hipfftCreate h)).plan w.obj.scale_factor :: made ∧
            made.length ≤ 1 ∧ ∀ c ∈ made, is_make_call c = true)) ∧
    (Double.eq w.obj.scale_factor Double.one = true →
      ∀ c ∈ new_calls w (create_plan V B w), is_scale_call c = false) := by
  have hsep : ∀ (q : fft_params) (api : PlanCreateAPI), Double.ne q.scale_factor Double.one = true →
      api ∈ allowed_apis B q →
      api = CREATE_MAKE_PLAN_Nd ∨ api = CREATE_MAKE_PLAN_MANY ∨ api = CREATE_MAKE_PLAN_MANY64 := by
    intro q api hne hmem
    have hneq : Double.eq q.scale_factor Double.one ≠ true := by
      intro h
      simp [Double.ne, h] at hne
    cases api
    · exact absurd (combined_allowed B q _ hmem (Or.inl rfl)) hneq
    · exact absurd (combined_allowed B q _ hmem (Or.inr rfl)) hneq
    · exact Or.inl rfl
    · exact Or.inr (Or.inl rfl)
    · exact Or.inr (Or.inr rfl)
  refine ⟨?_, ?_, ?_⟩
  · intro hne
    obtain ⟨api, hmem, _, hget⟩ := get_create_type_eq B p
    have hthree := hsep p api hne hmem
    refine ⟨⟨api, hthree, hget⟩, ?_, ?_⟩
    · rw [hget]
      rcases hthree with h | h | h <;> subst h <;> decide
    · rw [hget]
      rcases hthree with h | h | h <;> subst h <;> decide
  · intro hne
    rcases create_plan_calls V B w with h | ⟨api, w1, hbase, htr, hmem, _, hcalls⟩
    · exact Or.inl h
    · have hsc : w1.obj.scale_factor = w.obj.scale_factor := by rw [hbase]
      rcases make_routine_calls api V w1 (hsep _ api hne hmem) with h | ⟨made, h, hlen, hok, hmk⟩
      · left
        rw [hcalls, h]
      · right
        rw [htr, hsc] at h
        rw [htr] at hok
        refine ⟨w1.obj.plan,
          (if (V w.trace (VendorCall.hipfftCreate w1.obj.plan)).code = HIPFFT_SUCCESS ∧
              Double.ne w.obj.scale_factor Double.one = true then
            [VendorCall.hipfftExtPlanScaleFactor
              (V w.trace (VendorCall.hipfftCreate w1.obj.plan)).plan w.obj.scale_factor]
          else []) ++ made, ?_, ?_, ?_⟩
        · rw [hcalls, h]
          rfl
        · intro hfail
          have hm : made = [] := by
            by_contra hne2
            exact hfail (hok hne2)
          simp [hfail, hm]
        · intro hsucc
          refine ⟨made, ?_, hlen, fun c hc => (hmk c hc).1⟩
          simp [hsucc, hne]
  · intro heq c hc
    have hne : ¬ (Double.ne w.obj.scale_factor Double.one = true) := by
      simp [Double.ne, heq]
    rcases create_plan_calls V B w with h | ⟨api, w1, hbase, htr, hmem, _, hcalls⟩
    · rw [h] at hc
      exact absurd hc (List.not_mem_nil c)
    · have hsc : w1.obj.scale_factor = w.obj.scale_factor := by rw [hbase]
      rw [hcalls] at hc
      have hmake : ∀ a, a = CREATE_MAKE_PLAN_Nd ∨ a = CREATE_MAKE_PLAN_MANY ∨
          a = CREATE_MAKE_PLAN_MANY64 → c ∈ new_calls w1 (creation_routine a V w1) →
          is_scale_call c = false := by
        intro a ha hca
        rcases make_routine_calls a V w1 ha with h | ⟨made, h, _, _, hmk⟩
        · rw [h] at hca
          exact absurd hca (List.not_mem_nil c)
        · rw [h, hsc, List.mem_append] at hca
          rcases hca with hca | hca
          · simp only [hne, Bool.false_eq_true, and_false, if_false, List.mem_singleton] at hca
            rw [hca]
            rfl
          · exact not_scale_call c (Or.inl (hmk c hca).1)
      have hcomb : ∀ a, a = PLAN_Nd ∨ a = PLAN_MANY →
          c ∈ new_calls w1 (creation_routine a V w1) → is_scale_call c = false := by
        intro a ha hca
        rcases combined_routine_calls a V w1 ha with h | ⟨c1, h, h2, _⟩
        · rw [h] at hca
          exact absurd hca (List.not_mem_nil c)
        · rw [h, List.mem_singleton] at hca
          subst hca
          exact not_scale_call c (Or.inr h2)
      cases api
      · exact hcomb _ (Or.inl rfl) hc
      · exact hcomb _ (Or.inr rfl) hc
      · exact hmake _ (Or.inl rfl) hc
      · exact hmake _ (Or.inr (Or.inl rfl)) hc
      · exact hmake _ (Or.inr (Or.inr rfl)) hc

/-- Witness of C4 on the sample parameters with the scale factor 2: the API
returned is one of the three separate ones. -/
theorem scaling_selects_separate_api_witness :
    ∃ api, (api = CREATE_MAKE_PLAN_Nd ∨ api = CREATE_MAKE_PLAN_MANY ∨
        api = CREATE_MAKE_PLAN_MANY64) ∧
      get_create_type sample_base { sample_params with scale_factor := Double.finite 2 } =
        some api.toInt :=
  (scaling_selects_separate_api sample_base { sample_params with scale_factor := Double.finite 2 }
    sample_vendor sample_world).1 (by decide) |>.1

/-- C5: `get_create_type` is a function of the hash of the token, of
`scale_factor == 1.0`, of `is_contiguous()`, of `nbatch > 1` and of
`dim() == 1` only: two parameter sets that agree on these five values get
the same API, whatever their other fields. -/
theorem get_create_type_stable (B1 B2 : fft_base) (p1 p2 : fft_params)
    (hhash : B1.hash (B1.token p1) = B2.hash (B2.token p2))
    (hscale : Double.eq p1.scale_factor Double.one = Double.eq p2.scale_factor Double.one)
    (hcont : is_contiguous B1 p1 = is_contiguous B2 p2)
    (hbatch : decide (p1.nbatch > 1) = decide (p2.nbatch > 1))
    (hdim : decide (dim p1 = 1) = decide (dim p2 = 1)) :
    get_create_type B1 p1 = get_create_type B2 p2 := by
  simp only [get_create_type, allowed_apis_eq, hhash, hscale, hcont, hbatch, hdim]

/-- Witness of C5: the sample parameters and a double-precision, in-place
real transform of another length and batch distance get the same API. -/
theorem get_create_type_stable_witness :
    get_create_type sample_base sample_params =
      get_create_type sample_base
        { sample_params with
          length := [16], precision := fft_precision_double,
          placement := fft_placement_inplace, transform_type := 2, run_callbacks := false } :=
  get_create_type_stable sample_base sample_base sample_params _
    (by decide) (by decide) (by decide) (by decide) (by decide)

/-- On a known transform type `set_callbacks` with `run_callbacks` makes
the two registrations with the load kind of the input elements and the
store kind of the output elements. -/
theorem set_callbacks_known (V : Vendor) (w : World) (lh ld sh sd : Ptr)
    (hrun : w.obj.run_callbacks = true) (hk : known_type w.obj.hipfft_transform_type) :
    ∃ ik ok, input_kind w.obj.hipfft_transform_type = some ik ∧
      output_kind w.obj.hipfft_transform_type = some ok ∧
      set_callbacks V w lh ld sh sd =
        register_callbacks V w lh ld sh sd (load_callback_of ik) (store_callback_of ok) := by
  unfold known_type at hk
  rcases hk with h | h | h | h | h | h
  · exact ⟨elem_kind.real, elem_kind.complex, by rw [h]; decide, by rw [h]; decide,
      by simp [set_callbacks, hrun, h, load_callback_of, store_callback_of]⟩
  · exact ⟨elem_kind.real_double, elem_kind.complex_double, by rw [h]; decide, by rw [h]; decide,
      by simp [set_callbacks, hrun, h, load_callback_of, store_callback_of, HIPFFT_D2Z,
        HIPFFT_R2C]⟩
  · exact ⟨elem_kind.complex, elem_kind.real, by rw [h]; decide, by rw [h]; decide,
      by simp [set_callbacks, hrun, h, load_callback_of, store_callback_of, HIPFFT_D2Z,
        HIPFFT_R2C, HIPFFT_C2R]⟩
  · exact ⟨elem_kind.complex_double, elem_kind.real_double, by rw [h]; decide, by rw [h]; decide,
      by simp [set_callbacks, hrun, h, load_callback_of, store_callback_of, HIPFFT_D2Z,
        HIPFFT_R2C, HIPFFT_C2R, HIPFFT_Z2D]⟩
  · exact ⟨elem_kind.complex, elem_kind.complex, by rw [h]; decide, by rw [h]; decide,
      by simp [set_callbacks, hrun, h, load_callback_of, store_callback_of, HIPFFT_D2Z,
        HIPFFT_R2C, HIPFFT_C2R, HIPFFT_Z2D, HIPFFT_C2C]⟩
  · exact ⟨elem_kind.complex_double, elem_kind.complex_double, by rw [h]; decide,
      by rw [h]; decide,
      by simp [set_callbacks, hrun, h, load_callback_of, store_callback_of, HIPFFT_D2Z,
        HIPFFT_R2C, HIPFFT_C2R, HIPFFT_Z2D, HIPFFT_C2C, HIPFFT_Z2Z]⟩

/-- On any other transform type `set_callbacks` with `run_callbacks` throws. -/
theorem set_callbacks_unknown (V : Vendor) (w : World) (lh ld sh sd : Ptr)
    (hrun : w.obj.run_callbacks = true) (hk : ¬ known_type w.obj.hipfft_transform_type) :
    set_callbacks V w lh ld sh sd = Res.threw "Invalid execution type" w := by
  unfold known_type at hk
  simp only [not_or] at hk
  simp [set_callbacks, hrun, hk.1, hk.2.1, hk.2.2.1, hk.2.2.2.1, hk.2.2.2.2.1, hk.2.2.2.2.2]

/-- Only a known transform type has an input element kind. -/
theorem input_kind_known (t : hipfftType) (ik : elem_kind) (h : input_kind t = some ik) :
    known_type t := by
  unfold input_kind at h
  unfold known_type
  split_ifs at h <;> simp_all

/-- C7: `set_callbacks` returns `fft_status_success` exactly when
`run_callbacks` is false or both registrations, load then store, return
`HIPFFT_SUCCESS`. With `run_callbacks` false it makes no vendor call. With
`run_callbacks` true and a known transform type it registers the load
callback first, of the kind of the input elements; if that fails it returns
the translation of the failure code without registering the store callback;
otherwise it registers the store callback, of the kind of the output
elements, and returns the translation of its code if it fails. -/
theorem set_callbacks_result (V : Vendor) (w : World) (lh ld sh sd : Ptr) :
    ((∃ w1, set_callbacks V w lh ld sh sd = Res.ret fft_status_success w1) ↔
      (w.obj.run_callbacks = false ∨
        ∃ ik ok, input_kind w.obj.hipfft_transform_type = some ik ∧
          output_kind w.obj.hipfft_transform_type = some ok ∧
          (V w.trace (load_registration w lh ld ik)).code = HIPFFT_SUCCESS ∧
          (V (w.trace ++ [load_registration w lh ld ik])
            (store_registration w sh sd ok)).code = HIPFFT_SUCCESS)) ∧
    (w.obj.run_callbacks = false →
      set_callbacks V w lh ld sh sd = Res.ret fft_status_success w) ∧
    (w.obj.run_callbacks = true → known_type w.obj.hipfft_transform_type →
      ∃ ik ok, input_kind w.obj.hipfft_transform_type = some ik ∧
        output_kind w.obj.hipfft_transform_type = some ok ∧
        ((V w.trace (load_registration w lh ld ik)).code ≠ HIPFFT_SUCCESS →
          set_callbacks V w lh ld sh sd =
            Res.ret (fft_status_from_hipfftparams (V w.trace (load_registration w lh ld ik)).code)
              { w with trace := w.trace ++ [load_registration w lh ld ik] }) ∧
        ((V w.trace (load_registration w lh ld ik)).code = HIPFFT_SUCCESS →
          (V (w.trace ++ [load_registration w lh ld ik])
            (store_registration w sh sd ok)).code ≠ HIPFFT_SUCCESS →
          set_callbacks V w lh ld sh sd =
            Res.ret (fft_status_from_hipfftparams
                (V (w.trace ++ [load_registration w lh ld ik])
                  (store_registration w sh sd ok)).code)
              { w with trace := w.trace ++
                [load_registration w lh ld ik, store_registration w sh sd ok] }) ∧
        ((V w.trace (load_registration w lh ld ik)).code = HIPFFT_SUCCESS →
          (V (w.trace ++ [load_registration w lh ld ik])
            (store_registration w sh sd ok)).code = HIPFFT_SUCCESS →
          set_callbacks V w lh ld sh sd =
            Res.ret fft_status_success
              { w with trace := w.trace ++
                [load_registration w lh ld ik, store_registration w sh sd ok] })) := by
  have hnot : ∀ code : hipfftResult_t, code ≠ HIPFFT_SUCCESS →
      fft_status_from_hipfftparams code ≠ fft_status_success := fun code hc h =>
    hc ((status_success_iff code).mp h)
  have h3 : w.obj.run_callbacks = true → known_type w.obj.hipfft_transform_type →
      ∃ ik ok, input_kind w.obj.hipfft_transform_type = some ik ∧
        output_kind w.obj.hipfft_transform_type = some ok ∧
        ((V w.trace (load_registration w lh ld ik)).code ≠ HIPFFT_SUCCESS →
          set_callbacks V w lh ld sh sd =
            Res.ret (fft_status_from_hipfftparams (V w.trace (load_registration w lh ld ik)).code)
              { w with trace := w.trace ++ [load_registration w lh ld ik] }) ∧
        ((V w.trace (load_registration w lh ld ik)).code = HIPFFT_SUCCESS →
          (V (w.trace ++ [load_registration w lh ld ik])
            (store_registration w sh sd ok)).code ≠ HIPFFT_SUCCESS →
          set_callbacks V w lh ld sh sd =
            Res.ret (fft_status_from_hipfftparams
                (V (w.trace ++ [load_registration w lh ld ik])
                  (store_registration w sh sd ok)).code)
              { w with trace := w.trace ++
                [load_registration w lh ld ik, store_registration w sh sd ok] }) ∧
        ((V w.trace (load_registration w lh ld ik)).code = HIPFFT_SUCCESS →
          (V (w.trace ++ [load_registration w lh ld ik])
            (store_registration w sh sd ok)).code = HIPFFT_SUCCESS →
          set_callbacks V w lh ld sh sd =
            Res.ret fft_status_success
              { w with trace := w.trace ++
                [load_registration w lh ld ik, store_registration w sh sd ok] }) := by
    intro hrun hk
    obtain ⟨ik, ok, hik, hok, hset⟩ := set_callbacks_known V w lh ld sh sd hrun hk
    refine ⟨ik, ok, hik, hok, ?_, ?_, ?_⟩
    · intro h1
      rw [hset]
      simp only [register_callbacks, callPlain, callVendor, load_registration] at h1 ⊢
      rw [if_pos h1]
    · intro h1 h2
      rw [hset]
      simp only [register_callbacks, callPlain, callVendor, load_registration,
        store_registration] at h1 h2 ⊢
      rw [if_neg (not_not.mpr h1), if_pos h2]
      simp
    · intro h1 h2
      rw [hset]
      simp only [register_callbacks, callPlain, callVendor, load_registration,
        store_registration] at h1 h2 ⊢
      rw [if_neg (not_not.mpr h1), if_neg (not_not.mpr h2)]
      simp
  have h2 : w.obj.run_callbacks = false →
      set_callbacks V w lh ld sh sd = Res.ret fft_status_success w := by
    intro hrun
    simp [set_callbacks, hrun]
  refine ⟨?_, h2, h3⟩
  cases hrun : w.obj.run_callbacks with
  | false =>
    constructor
    · intro _
      exact Or.inl rfl
    · intro _
      exact ⟨w, h2 hrun⟩
  | true =>
    constructor
    · rintro ⟨w1, hret⟩
      right
      by_cases hk : known_type w.obj.hipfft_transform_type
      · obtain ⟨ik, ok, hik, hok, ha, hb, _⟩ := h3 hrun hk
        refine ⟨ik, ok, hik, hok, ?_, ?_⟩
        · by_contra hc
          rw [ha hc] at hret
          simp only [Res.ret.injEq] at hret
          exact hnot _ hc hret.1
        · by_contra hc
          have h1 : (V w.trace (load_registration w lh ld ik)).code = HIPFFT_SUCCESS := by
            by_contra hc1
            rw [ha hc1] at hret
            simp only [Res.ret.injEq] at hret
            exact hnot _ hc1 hret.1
          rw [hb h1 hc] at hret
          simp only [Res.ret.injEq] at hret
          exact hnot _ hc hret.1
      · rw [set_callbacks_unknown V w lh ld sh sd hrun hk] at hret
        exact absurd hret (by simp)
    · rintro (h | ⟨ik, ok, hik, hok, h1, h2⟩)
      · exact absurd h (by simp)
      · have hk := input_kind_known _ _ hik
        obtain ⟨ik1, ok1, hik1, hok1, _, _, hc⟩ := h3 hrun hk
        rw [hik] at hik1
        rw [hok] at hok1
        obtain rfl := Option.some.inj hik1
        obtain rfl := Option.some.inj hok1
        exact ⟨_, hc h1 h2⟩

/-- On a known transform type the `try` block of `execute` makes the
matching exec call and gives its result code. -/
theorem execute_try_known (V : Vendor) (w : World) (ib ob : Ptr)
    (hk : known_type w.obj.hipfft_transform_type) :
    ∃ c, exec_call_of w.obj.hipfft_transform_type w.obj.plan ib
        (if w.obj.placement = fft_placement_inplace then ib else ob) w.obj.direction = some c ∧
      execute_try V w ib ob = Res.ret (V w.trace c).code { w with trace := w.trace ++ [c] } := by
  unfold known_type at hk
  rcases hk with h | h | h | h | h | h <;>
    simp [execute_try, exec_call_of, out_buffer, retPair, callPlain, callVendor, h, HIPFFT_D2Z,
      HIPFFT_R2C, HIPFFT_C2R, HIPFFT_Z2D, HIPFFT_C2C, HIPFFT_Z2Z]

/-- On any other transform type the `try` block of `execute` throws without
a vendor call. -/
theorem execute_try_unknown (V : Vendor) (w : World) (ib ob : Ptr)
    (hk : ¬ known_type w.obj.hipfft_transform_type) :
    execute_try V w ib ob = Res.threw "Invalid execution type" w := by
  unfold known_type at hk
  simp only [not_or] at hk
  simp [execute_try, hk.1, hk.2.1, hk.2.2.1, hk.2.2.2.1, hk.2.2.2.2.1, hk.2.2.2.2.2]

/-- C8: `execute(ibuffer, obuffer)` never throws. On a known transform type
it makes exactly one vendor call, the exec call of that type, with `ibuffer`
as input and as output `ibuffer` when the placement is in place and
`obuffer` otherwise, the direction being passed only to the two
complex-to-complex calls, and it returns the translation of the result of
that call. On any other transform type it makes no vendor call and returns
`fft_status_failure`. -/
theorem execute_result (V : Vendor) (w : World) (ibuffer obuffer : Ptr) :
    (∀ msg w1, execute V w ibuffer obuffer ≠ Res.threw msg w1) ∧
    (known_type w.obj.hipfft_transform_type →
      ∃ c, exec_call_of w.obj.hipfft_transform_type w.obj.plan ibuffer
          (if w.obj.placement = fft_placement_inplace then ibuffer else obuffer)
          w.obj.direction = some c ∧
        execute V w ibuffer obuffer =
          Res.ret (fft_status_from_hipfftparams (V w.trace c).code)
            { w with trace := w.trace ++ [c] }) ∧
    (¬ known_type w.obj.hipfft_transform_type →
      execute V w ibuffer obuffer =
        Res.ret fft_status_failure { w with cerr := w.cerr ++ ["Invalid execution type"] }) := by
  have hknown : known_type w.obj.hipfft_transform_type →
      ∃ c, exec_call_of w.obj.hipfft_transform_type w.obj.plan ibuffer
          (if w.obj.placement = fft_placement_inplace then ibuffer else obuffer)
          w.obj.direction = some c ∧
        execute V w ibuffer obuffer =
          Res.ret (fft_status_from_hipfftparams (V w.trace c).code)
            { w with trace := w.trace ++ [c] } := by
    intro hk
    obtain ⟨c, hc, htry⟩ := execute_try_known V w ibuffer obuffer hk
    exact ⟨c, hc, by rw [execute, htry]⟩
  have hunknown : ¬ known_type w.obj.hipfft_transform_type →
      execute V w ibuffer obuffer =
        Res.ret fft_status_failure { w with cerr := w.cerr ++ ["Invalid execution type"] } := by
    intro hk
    rw [execute, execute_try_unknown V w ibuffer obuffer hk]
    rfl
  refine ⟨?_, hknown, hunknown⟩
  intro msg w1 h
  by_cases hk : known_type w.obj.hipfft_transform_type
  · obtain ⟨c, _, hc⟩ := hknown hk
    rw [hc] at h
    exact absurd h (by simp)
  · rw [hunknown hk] at h
    exact absurd h (by simp)

/-- Witness of C8 on the sample world with the type `HIPFFT_R2C`: one call
to `hipfftExecR2C` from buffer 100 to buffer 200, and success. -/
theorem execute_result_witness :
    execute sample_vendor
        { sample_world with obj := { sample_object with hipfft_transform_type := HIPFFT_R2C } }
        100 200 =
      Res.ret fft_status_success
        { sample_world with
          obj := { sample_object with hipfft_transform_type := HIPFFT_R2C }
          trace := [VendorCall.hipfftExecR2C 0 100 200] } := by
  obtain ⟨c, hc, h⟩ := (execute_result sample_vendor
    { sample_world with obj := { sample_object with hipfft_transform_type := HIPFFT_R2C } }
    100 200).2.1 (by decide)
  have hc2 : c = VendorCall.hipfftExecR2C 0 100 200 := by
    have : some c = some (VendorCall.hipfftExecR2C 0 100 200) := by rw [← hc]; rfl
    exact Option.some.inj this
  rw [h, hc2]
  rfl

/-- Witness of C7 on the sample world with the type `HIPFFT_R2C`: the load
callback is registered with `HIPFFT_CB_LD_REAL`, the store callback with
`HIPFFT_CB_ST_COMPLEX`, and the result is success. -/
theorem set_callbacks_result_witness :
    set_callbacks sample_vendor
        { sample_world with obj := { sample_object with hipfft_transform_type := HIPFFT_R2C } }
        1 2 3 4 =
      Res.ret fft_status_success
        { sample_world with
          obj := { sample_object with hipfft_transform_type := HIPFFT_R2C }
          trace := [VendorCall.hipfftXtSetCallback 0 1 HIPFFT_CB_LD_REAL 2,
            VendorCall.hipfftXtSetCallback 0 3 HIPFFT_CB_ST_COMPLEX 4] } := by
  obtain ⟨ik, ok, hik, hok, _, _, h⟩ := (set_callbacks_result sample_vendor
    { sample_world with obj := { sample_object with hipfft_transform_type := HIPFFT_R2C } }
    1 2 3 4).2.2 rfl (by decide)
  have h1 : ik = elem_kind.real := by
    have : some ik = some elem_kind.real := by rw [← hik]; rfl
    exact Option.some.inj this
  have h2 : ok = elem_kind.complex := by
    have : some ok = some elem_kind.complex := by rw [← hok]; rfl
    exact Option.some.inj this
  subst h1
  subst h2
  exact h rfl rfl

/-- A creation routine that returns leaves a longer trace. -/
theorem creation_routine_ret_longer (api : PlanCreateAPI) (V : Vendor) (w w1 : World)
    (code : hipfftResult_t) (h : creation_routine api V w = Res.ret code w1) :
    w.trace.length < w1.trace.length := by
  obtain ⟨code2, w2, hcw, _, htrace, _⟩ := create_with_scale_factor_calls V w
  have hlen2 : w.trace.length < w2.trace.length := by
    rw [htrace, List.length_append, List.length_cons]
    omega
  have hcall : ∀ (c : VendorCall) (w3 : World), w.trace.length ≤ w3.trace.length →
      (retPair (callSetWork V c w3) = Res.ret code w1 ∨
        retPair (callSetPlan V c w3) = Res.ret code w1) →
      w.trace.length < w1.trace.length := by
    intro c w3 hle hr
    rcases hr with hr | hr
    · simp only [retPair, callSetWork, callVendor, Res.ret.injEq] at hr
      rw [← hr.2]
      simp only [List.length_append, List.length_singleton]
      omega
    · simp only [retPair, callSetPlan, callVendor, Res.ret.injEq] at hr
      rw [← hr.2]
      simp only [List.length_append, List.length_singleton]
      omega
  cases api
  · simp only [creation_routine, create_plan_Nd] at h
    split_ifs at h
    · split at h
      · exact hcall _ w (le_refl _) (Or.inr h)
      · exact absurd h (by simp)
    · split at h
      · exact hcall _ w (le_refl _) (Or.inr h)
      · exact absurd h (by simp)
    · split at h
      · exact hcall _ w (le_refl _) (Or.inr h)
      · exact absurd h (by simp)
  · simp only [creation_routine, create_plan_many] at h
    split at h
    · exact hcall _ w (le_refl _) (Or.inr h)
    · exact absurd h (by simp)
  · simp only [creation_routine, create_make_plan_Nd, hcw, Res.andThen] at h
    split_ifs at h
    · simp only [Res.ret.injEq] at h
      rw [← h.2]
      exact hlen2
    · split at h
      · exact hcall _ w2 (le_of_lt hlen2) (Or.inl h)
      · exact absurd h (by simp)
    · split at h
      · exact hcall _ w2 (le_of_lt hlen2) (Or.inl h)
      · exact absurd h (by simp)
    · split at h
      · exact hcall _ w2 (le_of_lt hlen2) (Or.inl h)
      · exact absurd h (by simp)
  · simp only [creation_routine, create_make_plan_many, hcw, Res.andThen] at h
    split_ifs at h
    · simp only [Res.ret.injEq] at h
      rw [← h.2]
      exact hlen2
    · split at h
      · exact hcall _ w2 (le_of_lt hlen2) (Or.inl h)
      · exact absurd h (by simp)
  · simp only [creation_routine, create_make_plan_many64, hcw, Res.andThen] at h
    split_ifs at h
    · simp only [Res.ret.injEq] at h
      rw [← h.2]
      exact hlen2
    · split at h
      · exact hcall _ w2 (le_of_lt hlen2) (Or.inl h)
      · exact absurd h (by simp)

/-- C10: `setup_structs` never returns a status other than
`fft_status_success`. On strides with at least `dim()` entries and non-zero
divisors it throws `Invalid transform type` exactly when the transform type
is not 0, 1, 2 or 3, whatever the dimension; otherwise it throws
`Invalid dimension` exactly when `dim()` is not 1, 2 or 3; otherwise it
returns `fft_status_success`. So `vram_footprint` never throws
`Struct setup failed`, and `create_plan` never takes its early return: when
it returns it has made a vendor call. -/
theorem setup_structs_outcomes (p : hipfft_params) (B : fft_base) (V : Vendor) (w : World) :
    (∀ st p1, setup_structs p = Res.ret st p1 → st = fft_status_success) ∧
    (strides_defined p.istride (dim p.tofft_params) ∧
        strides_defined p.ostride (dim p.tofft_params) →
      ((∃ p1, setup_structs p = Res.threw "Invalid transform type" p1) ↔
        ¬ (p.transform_type = 0 ∨ p.transform_type = 1 ∨ p.transform_type = 2 ∨
          p.transform_type = 3)) ∧
      ((p.transform_type = 0 ∨ p.transform_type = 1 ∨ p.transform_type = 2 ∨
          p.transform_type = 3) →
        ((∃ p1, setup_structs p = Res.threw "Invalid dimension" p1) ↔
          ¬ (1 ≤ dim p.tofft_params ∧ dim p.tofft_params ≤ 3))) ∧
      ((p.transform_type = 0 ∨ p.transform_type = 1 ∨ p.transform_type = 2 ∨
          p.transform_type = 3) →
        1 ≤ dim p.tofft_params ∧ dim p.tofft_params ≤ 3 →
        ∃ p1, setup_structs p = Res.ret fft_status_success p1)) ∧
    (∀ p1, vram_footprint B p ≠ Res.threw "Struct setup failed" p1) ∧
    (∀ st w1, create_plan V B w = Res.ret st w1 → w.trace.length < w1.trace.length) := by
  refine ⟨fun st p1 h => setup_structs_ret_success p p1 st h, ?_, ?_, ?_⟩
  · intro hs
    refine ⟨?_, ?_, ?_⟩
    · constructor
      · rintro ⟨p1, h⟩ htt
        have hsel := select_type_known p.transform_type p.precision htt
        simp only [setup_structs, hsel] at h
        split at h
        · simp only [Res.threw.injEq] at h
          exact absurd h.1 (by decide)
        · exact absurd h (by simp)
        · split at h <;> exact absurd h (by simp)
      · intro htt
        have hsel := (select_type_none p.transform_type p.precision).mpr htt
        exact ⟨p, by simp only [setup_structs, hsel]⟩
    · intro htt
      have hsel := select_type_known p.transform_type p.precision htt
      constructor
      · rintro ⟨p1, h⟩ hdim
        obtain ⟨p2, h2, _⟩ := setup_structs_defined p _ _ hsel hdim hs.1 hs.2
        rw [h2] at h
        exact absurd h (by simp)
      · intro hdim
        have hE := embed_switch_none (resize_all { p with
            hipfft_transform_type :=
              (if p.precision = fft_precision_single then
                (if p.transform_type = 0 ∨ p.transform_type = 1 then HIPFFT_C2C
                  else if p.transform_type = 2 then HIPFFT_R2C else HIPFFT_C2R)
              else
                (if p.transform_type = 0 ∨ p.transform_type = 1 then HIPFFT_Z2Z
                  else if p.transform_type = 2 then HIPFFT_D2Z else HIPFFT_Z2D))
            direction :=
              (if p.transform_type = 0 ∨ p.transform_type = 2 then HIPFFT_FORWARD
                else HIPFFT_BACKWARD) }) hdim
        exact ⟨_, by simp only [setup_structs, hsel, hE]; rfl⟩
    · intro htt hdim
      have hsel := select_type_known p.transform_type p.precision htt
      obtain ⟨p2, h2, _⟩ := setup_structs_defined p _ _ hsel hdim hs.1 hs.2
      exact ⟨p2, h2⟩
  · intro p1 h
    unfold vram_footprint at h
    cases hs : setup_structs p with
    | ret st p2 =>
      have hst := setup_structs_ret_success _ _ _ hs
      subst hst
      simp [hs, Res.andThen] at h
    | threw msg p2 =>
      have hm := setup_structs_threw_msg _ _ _ hs
      simp only [hs, Res.andThen, Res.threw.injEq] at h
      rcases hm with hm | hm <;> rw [hm] at h <;> exact absurd h.1 (by decide)
    | undefined =>
      simp [hs, Res.andThen] at h
  · intro st w1 h
    unfold create_plan at h
    cases hs : setup_structs w.obj with
    | ret st2 p2 =>
      have hst := setup_structs_ret_success _ _ _ hs
      subst hst
      obtain ⟨api, _, _, hget⟩ := get_create_type_eq B p2.tofft_params
      simp only [hs, Res.inWorld, Res.andThen, ne_eq, not_true_eq_false, if_false, hget,
        create_switch_toInt] at h
      cases hr : creation_routine api V { w with obj := p2 } with
      | ret code w2 =>
        rw [hr] at h
        simp only [Res.ret.injEq] at h
        rw [← h.2]
        exact creation_routine_ret_longer api V { w with obj := p2 } w2 code hr
      | threw msg w2 => rw [hr] at h; simp at h
      | undefined => rw [hr] at h; simp at h
    | threw msg p2 =>
      simp [hs, Res.inWorld, Res.andThen] at h
    | undefined =>
      simp [hs, Res.inWorld, Res.andThen] at h

/-- Witness of C10 on the sample object, whose strides are defined: its
transform type is 0 and its dimension 1, and `setup_structs` returns
`fft_status_success`. -/
theorem setup_structs_outcomes_witness :
    ∃ p1, setup_structs sample_object = Res.ret fft_status_success p1 :=
  (setup_structs_outcomes sample_object sample_base sample_vendor sample_world).2.1
    (by decide) |>.2.2 (Or.inl rfl) (by decide)

/-- C9 (amended): for a dimension `d` from 1 to 3 and a transform type from
0 to 3, if the input strides are built from a positive innermost stride `s`
and positive embed sizes `n`, the output strides likewise from `so` and `no`,
and every length, innermost stride and embed size is below `2^63`, then
`setup_structs` returns with `ll_inembed[i] = n[i]` for `1 <= i < d` and
`ll_inembed[0] = s`, the same for `ll_onembed`; the six arrays have size `d`,
`ll_length[i]` is `length[i]`, and an `int` entry equals the `long long`
entry whenever that value is below `2^31`. -/
theorem embed_recovery (p : hipfft_params) (s so : Nat) (n no : Nat → Nat)
    (htt : p.transform_type = 0 ∨ p.transform_type = 1 ∨ p.transform_type = 2 ∨
      p.transform_type = 3)
    (hdim : 1 ≤ dim p.tofft_params ∧ dim p.tofft_params ≤ 3)
    (hs : p.istride[dim p.tofft_params - 1]? = some s) (hspos : 0 < s)
    (hn : ∀ i, i + 1 < dim p.tofft_params →
      0 < n (i + 1) ∧ p.istride[i]? = some (p.istride.getD (i + 1) 0 * n (i + 1)))
    (hso : p.ostride[dim p.tofft_params - 1]? = some so) (hsopos : 0 < so)
    (hno : ∀ i, i + 1 < dim p.tofft_params →
      0 < no (i + 1) ∧ p.ostride[i]? = some (p.ostride.getD (i + 1) 0 * no (i + 1)))
    (hbl : ∀ x ∈ p.length, x < 2 ^ 63)
    (hsb : s < 2 ^ 63) (hnb : ∀ i, 1 ≤ i → i < dim p.tofft_params → n i < 2 ^ 63)
    (hsob : so < 2 ^ 63) (hnob : ∀ i, 1 ≤ i → i < dim p.tofft_params → no i < 2 ^ 63) :
    ∃ p1, setup_structs p = Res.ret fft_status_success p1 ∧
      (∀ i, 1 ≤ i → i < dim p.tofft_params → p1.ll_inembed[i]? = some (Int.ofNat (n i))) ∧
      p1.ll_inembed[0]? = some (Int.ofNat s) ∧
      (∀ i, 1 ≤ i → i < dim p.tofft_params → p1.ll_onembed[i]? = some (Int.ofNat (no i))) ∧
      p1.ll_onembed[0]? = some (Int.ofNat so) ∧
      (p1.int_length.length = dim p.tofft_params ∧ p1.int_inembed.length = dim p.tofft_params ∧
        p1.int_onembed.length = dim p.tofft_params ∧ p1.ll_length.length = dim p.tofft_params ∧
        p1.ll_inembed.length = dim p.tofft_params ∧
        p1.ll_onembed.length = dim p.tofft_params) ∧
      (∀ i, i < dim p.tofft_params → p1.ll_length[i]? = (p.length[i]?).map Int.ofNat) ∧
      (∀ (i : Nat) (v : Int), p1.ll_length[i]? = some v → v < 2 ^ 31 → p1.int_length[i]? = some v) ∧
      (∀ (i : Nat) (v : Int), p1.ll_inembed[i]? = some v → v < 2 ^ 31 → p1.int_inembed[i]? = some v) ∧
      (∀ (i : Nat) (v : Int), p1.ll_onembed[i]? = some v → v < 2 ^ 31 → p1.int_onembed[i]? = some v) := by
  obtain ⟨hdi, hli, hqi⟩ := stride_facts p.istride _ s n hdim hs hspos hn
  obtain ⟨hdo, hlo, hqo⟩ := stride_facts p.ostride _ so no hdim hso hsopos hno
  have hsel := select_type_known p.transform_type p.precision htt
  obtain ⟨p1, hret, hll, hil, hie, hoe, hlie, hloe, hi0, ho0, hin, hon⟩ :=
    setup_structs_arrays p _ _ hsel hdim hdi hdo
  have hI : ∀ i, 1 ≤ i → i < dim p.tofft_params → p1.ll_inembed[i]? = some (Int.ofNat (n i)) := by
    intro i h1 h2
    rw [hin i h1 h2, hqi i h1 h2, toLL_small _ (hnb i h1 h2)]
  have hO : ∀ i, 1 ≤ i → i < dim p.tofft_params →
      p1.ll_onembed[i]? = some (Int.ofNat (no i)) := by
    intro i h1 h2
    rw [hon i h1 h2, hqo i h1 h2, toLL_small _ (hnob i h1 h2)]
  have hI0 : p1.ll_inembed[0]? = some (Int.ofNat s) := by
    rw [hi0, hli, toLL_small _ hsb]
  have hO0 : p1.ll_onembed[0]? = some (Int.ofNat so) := by
    rw [ho0, hlo, toLL_small _ hsob]
  have hnonneg : ∀ (l : List Int) (f : Nat → Nat) (x0 : Nat),
      l.length = dim p.tofft_params → l[0]? = some (Int.ofNat x0) →
      (∀ i, 1 ≤ i → i < dim p.tofft_params → l[i]? = some (Int.ofNat (f i))) →
      ∀ (i : Nat) (v : Int), l[i]? = some v → v < 2 ^ 31 → (l.map toInt32)[i]? = some v := by
    intro l f x0 hlen h0 hrest i v hv hlt
    have hv0 : 0 ≤ v := by
      have hil : i < l.length := by
        by_contra hc
        rw [List.getElem?_eq_none (by omega)] at hv
        exact absurd hv (by simp)
      rcases Nat.eq_zero_or_pos i with hz | hz
      · subst hz
        rw [h0] at hv
        rw [← Option.some.inj hv]
        exact Int.ofNat_nonneg _
      · rw [hrest i hz (by omega)] at hv
        rw [← Option.some.inj hv]
        exact Int.ofNat_nonneg _
    rw [List.getElem?_map, hv, Option.map_some', toInt32_small v hv0 hlt]
  refine ⟨p1, hret, hI, hI0, hO, hO0, ?_, ?_, ?_, ?_, ?_⟩
  · rw [hil, hie, hoe, hll]
    simp only [List.length_map]
    exact ⟨rfl, hlie, hloe, rfl, hlie, hloe⟩
  · intro i hi
    rw [hll, List.getElem?_map]
    have hx : i < p.length.length := hi
    rw [List.getElem?_eq_getElem hx]
    simp only [Option.map_some']
    rw [toLL_small _ (hbl _ (List.getElem_mem _))]
  · intro i v hv hlt
    rw [hll, List.getElem?_map] at hv
    rw [hil, List.getElem?_map]
    cases hx : p.length[i]? with
    | none => rw [hx] at hv; exact absurd hv (by simp)
    | some x =>
      rw [hx] at hv
      simp only [Option.map_some', Option.some.injEq] at hv ⊢
      have hxm : x ∈ p.length := List.getElem?_mem hx
      rw [toLL_small _ (hbl x hxm)] at hv
      rw [← hv] at hlt ⊢
      exact toInt32_small _ (Int.ofNat_nonneg _) hlt
  · intro i v hv hlt
    rw [hie]
    exact hnonneg _ n s hlie hI0 hI i v hv hlt
  · intro i v hv hlt
    rw [hoe]
    exact hnonneg _ no so hloe hO0 hO i v hv hlt

/-- Witness of C9 on the sample object of dimension 2, with innermost
stride 1 and embed size 8: `ll_inembed` is 1 and 8. -/
theorem embed_recovery_witness :
    ∃ p1, setup_structs sample_object_2d = Res.ret fft_status_success p1 ∧
      p1.ll_inembed[1]? = some 8 ∧ p1.ll_inembed[0]? = some 1 := by
  have hn : ∀ i, i + 1 < dim sample_object_2d.tofft_params →
      0 < (fun _ : Nat => 8) (i + 1) ∧
        sample_object_2d.istride[i]? =
          some (sample_object_2d.istride.getD (i + 1) 0 * (fun _ : Nat => 8) (i + 1)) := by
    intro i hi
    have h2 : dim sample_object_2d.tofft_params = 2 := rfl
    have h0 : i = 0 := by omega
    subst h0
    exact ⟨by decide, rfl⟩
  have h8 : (8 : Nat) < 2 ^ 63 := by decide
  obtain ⟨p1, h, hI, hI0, _⟩ := embed_recovery sample_object_2d 1 1 (fun _ => 8) (fun _ => 8)
    (Or.inl rfl) (by decide) rfl (by decide) hn rfl (by decide) hn
    (by decide) (by decide) (fun _ _ _ => h8) (by decide) (fun _ _ _ => h8)
  exact ⟨p1, h, hI 1 (le_refl 1) (by decide), hI0⟩

/-- Counterexample to C9 as stated: on an object of dimension 1 with length
`2^63` and input stride `2^63`, `setup_structs` returns with
`ll_length[0]` and `ll_inembed[0]` equal to `-2^63`, not to the length and
the stride, and with `int_length[0]` equal to 0, not to `ll_length[0]`,
although that value is below `2^31`. -/
theorem embed_recovery_counterexample :
    ∃ p1, setup_structs overflow_object = Res.ret fft_status_success p1 ∧
      dim overflow_object.tofft_params = 1 ∧
      overflow_object.length[0]? = some 9223372036854775808 ∧
      overflow_object.istride[0]? = some 9223372036854775808 ∧
      p1.ll_length[0]? = some (-9223372036854775808) ∧
      p1.ll_inembed[0]? = some (-9223372036854775808) ∧
      p1.int_length[0]? = some 0 := by
  obtain ⟨p1, h, _, _, _, _, h6, h7, h8, _⟩ :=
    setup_structs_dim1 overflow_object HIPFFT_C2C HIPFFT_FORWARD 9223372036854775808
      9223372036854775808 1 [] [] rfl rfl rfl rfl
  have e1 : toLL (Int.ofNat 9223372036854775808) = -9223372036854775808 := by
    norm_num [toLL]
  have e2 : toInt32 (Int.ofNat 9223372036854775808) = 0 := by
    norm_num [toInt32]
  refine ⟨p1, h, rfl, rfl, rfl, ?_, ?_, ?_⟩
  · rw [h6, e1]; rfl
  · rw [h8, e1]; rfl
  · rw [h7, e2]; rfl

/-- Witness of C3 on the sample parameters with a hash that selects the
fourth entry: `get_create_type` returns `PLAN_Nd`, and the transform is
contiguous with a single batch. -/
theorem non_many_api_only_contiguous_witness :
    get_create_type { sample_base with hash := fun _ => 3 } sample_params = some PLAN_Nd.toInt ∧
    is_contiguous { sample_base with hash := fun _ => 3 } sample_params = true ∧
    (sample_params.nbatch ≤ 1 ∨ dim sample_params = 1) :=
  ⟨by decide,
    (non_many_api_only_contiguous { sample_base with hash := fun _ => 3 } sample_params
      sample_vendor sample_world).1 (Or.inl (by decide))⟩

/-- The assignments of `case 3` do not read `workbuffersize`. -/
theorem embed_case3_workbuffer (p q : hipfft_params) (x : Nat) (h : embed_case3 p = some q) :
    embed_case3 { p with workbuffersize := x } = some { q with workbuffersize := x } := by
  simp only [embed_case3, Option.bind_eq_bind, Option.bind_eq_some, Option.pure_def,
    Option.some.injEq] at h ⊢
  obtain ⟨i1, hi1, i2, hi2, qi, hqi, li, hli, o1, ho1, o2, ho2, qo, hqo, lo, hlo, hq⟩ := h
  subst hq
  exact ⟨i1, hi1, i2, hi2, qi, hqi, li, hli, o1, ho1, o2, ho2, qo, hqo, lo, hlo, rfl⟩

/-- The assignments of `case 2` do not read `workbuffersize`. -/
theorem embed_case2_workbuffer (p q : hipfft_params) (x : Nat) (h : embed_case2 p = some q) :
    embed_case2 { p with workbuffersize := x } = some { q with workbuffersize := x } := by
  simp only [embed_case2, Option.bind_eq_bind, Option.bind_eq_some, Option.pure_def,
    Option.some.injEq] at h ⊢
  obtain ⟨i1, hi1, i2, hi2, qi, hqi, li, hli, o1, ho1, o2, ho2, qo, hqo, lo, hlo, hq⟩ := h
  subst hq
  exact ⟨i1, hi1, i2, hi2, qi, hqi, li, hli, o1, ho1, o2, ho2, qo, hqo, lo, hlo, rfl⟩

/-- The assignments of `case 1` do not read `workbuffersize`. -/
theorem embed_case1_workbuffer (p q : hipfft_params) (x : Nat) (h : embed_case1 p = some q) :
    embed_case1 { p with workbuffersize := x } = some { q with workbuffersize := x } := by
  simp only [embed_case1, Option.bind_eq_bind, Option.bind_eq_some, Option.pure_def,
    Option.some.injEq] at h ⊢
  obtain ⟨si, hsi, li, hli, so, hso, lo, hlo, hq⟩ := h
  subst hq
  exact ⟨si, hsi, li, hli, so, hso, lo, hlo, rfl⟩

/-- One turn of the copy loop does not read `workbuffersize`. -/
theorem copy_step_workbuffer (p q : hipfft_params) (i x : Nat) (h : copy_step p i = some q) :
    copy_step { p with workbuffersize := x } i = some { q with workbuffersize := x } := by
  simp only [copy_step, Option.bind_eq_bind, Option.bind_eq_some, Option.pure_def,
    Option.some.injEq] at h ⊢
  obtain ⟨len, hlen, ll, hll, il, hil, ie, hie, ii, hii, oe, hoe, io, hio, hq⟩ := h
  subst hq
  exact ⟨len, hlen, ll, hll, il, hil, ie, hie, ii, hii, oe, hoe, io, hio, rfl⟩

/-- The copy loop over any list of indices does not read `workbuffersize`. -/
theorem copy_fold_workbuffer (l : List Nat) (p q : hipfft_params) (x : Nat)
    (h : l.foldlM copy_step p = some q) :
    l.foldlM copy_step { p with workbuffersize := x } = some { q with workbuffersize := x } := by
  induction l generalizing p with
  | nil =>
    simp only [List.foldlM_nil, Option.pure_def, Option.some.injEq] at h ⊢
    rw [h]
  | cons i l ih =>
    simp only [List.foldlM_cons, Option.bind_eq_bind, Option.bind_eq_some] at h ⊢
    obtain ⟨p1, h1, h2⟩ := h
    exact ⟨_, copy_step_workbuffer p p1 i x h1, ih p1 h2⟩

/-- The second `switch` does not read `workbuffersize`. -/
theorem embed_switch_workbuffer (p q : hipfft_params) (x : Nat)
    (h : embed_switch p = some (some q)) :
    embed_switch { p with workbuffersize := x } = some (some { q with workbuffersize := x }) := by
  have hd : dim ({ p with workbuffersize := x } : hipfft_params).tofft_params =
      dim p.tofft_params := rfl
  simp only [embed_switch, hd] at h ⊢
  split_ifs at h ⊢
  · simp only [Option.some.injEq, Option.bind_eq_bind, Option.bind_eq_some] at h ⊢
    obtain ⟨p2, ⟨p3, h3, h2⟩, h1⟩ := h
    exact ⟨_, ⟨_, embed_case3_workbuffer _ _ x h3, embed_case2_workbuffer _ _ x h2⟩,
      embed_case1_workbuffer _ _ x h1⟩
  · simp only [Option.some.injEq, Option.bind_eq_bind, Option.bind_eq_some] at h ⊢
    obtain ⟨p2, h2, h1⟩ := h
    exact ⟨_, embed_case2_workbuffer _ _ x h2, embed_case1_workbuffer _ _ x h1⟩
  · simp only [Option.some.injEq] at h ⊢
    exact embed_case1_workbuffer _ _ x h

/-- The member `setup_structs` returns exactly when its first `switch`
selects a type, its second `switch` is defined and its copy loop is defined;
the object returned is the one the loop leaves. -/
theorem setup_structs_ret_iff (p p1 : hipfft_params) (st : fft_status) :
    setup_structs p = Res.ret st p1 ↔
      ∃ t d p2, select_type p.transform_type p.precision = some (t, d) ∧
        embed_switch (resize_all { p with hipfft_transform_type := t, direction := d }) =
          some (some p2) ∧
        copy_loop p2 = some p1 ∧ st = fft_status_from_hipfftparams HIPFFT_SUCCESS := by
  constructor
  · intro h
    simp only [setup_structs] at h
    split at h
    · exact absurd h (by simp)
    · rename_i t d hsel
      split at h
      · exact absurd h (by simp)
      · exact absurd h (by simp)
      · rename_i p2 he
        split at h
        · exact absurd h (by simp)
        · rename_i p3 hc
          simp only [Res.ret.injEq] at h
          obtain ⟨hst, hp⟩ := h
          subst hp
          exact ⟨t, d, p2, hsel, he, hc, hst.symm⟩
  · rintro ⟨t, d, p2, hsel, he, hc, hst⟩
    simp only [setup_structs, hsel, he, hc, hst]

/-- The member `setup_structs` neither reads nor writes `workbuffersize`:
on an object that differs only there it returns the same status and the
same object, up to that field. -/
theorem setup_structs_workbuffer (p p1 : hipfft_params) (st : fft_status) (x : Nat)
    (h : setup_structs p = Res.ret st p1) :
    setup_structs { p with workbuffersize := x } =
      Res.ret st { p1 with workbuffersize := x } := by
  obtain ⟨t, d, p2, hsel, he, hc, hst⟩ := (setup_structs_ret_iff p p1 st).mp h
  have he2 := embed_switch_workbuffer _ _ x he
  have hc2 : copy_loop { p2 with workbuffersize := x } = some { p1 with workbuffersize := x } :=
    copy_fold_workbuffer _ _ _ x hc
  exact (setup_structs_ret_iff _ _ st).mpr ⟨t, d, { p2 with workbuffersize := x }, hsel, he2,
    hc2, hst⟩

/-- Adding three times a `size_t` value to it, with both steps modulo
`2^64`, gives four times the value modulo `2^64`. -/
theorem footprint_arith (b : Nat) :
    3 * (b % 2 ^ 64) % 2 ^ 64 = 3 * b % 2 ^ 64 ∧
    (b % 2 ^ 64 + 3 * b % 2 ^ 64) % 2 ^ 64 = 4 * b % 2 ^ 64 := by
  constructor <;> omega

/-- C11: on a parameter set on which `setup_structs` succeeds, with `b` the
value of the base `vram_footprint()`, the member `vram_footprint` returns
`4 * b` modulo `2^64` and leaves the object of `setup_structs` with
`workbuffersize` set to `3 * b` modulo `2^64`; on an object that differs
only in the previous `workbuffersize`, with the same base value, the outcome
is the same. -/
theorem vram_footprint_value (B : fft_base) (p p1 : hipfft_params)
    (h : setup_structs p = Res.ret fft_status_success p1) :
    vram_footprint B p =
      Res.ret (4 * B.vram_footprint p.tofft_params % 2 ^ 64)
        { p1 with workbuffersize := 3 * B.vram_footprint p.tofft_params % 2 ^ 64 } ∧
    (∀ x, B.vram_footprint { p.tofft_params with workbuffersize := x } =
        B.vram_footprint p.tofft_params →
      vram_footprint B { p with workbuffersize := x } = vram_footprint B p) := by
  have key : ∀ q q1 : hipfft_params, setup_structs q = Res.ret fft_status_success q1 →
      vram_footprint B q =
        Res.ret (4 * B.vram_footprint q.tofft_params % 2 ^ 64)
          { q1 with workbuffersize := 3 * B.vram_footprint q.tofft_params % 2 ^ 64 } := by
    intro q q1 hq
    obtain ⟨e1, e2⟩ := footprint_arith (B.vram_footprint q.tofft_params)
    simp only [vram_footprint, hq, Res.andThen, ne_eq, not_true_eq_false, if_false, e1, e2]
  refine ⟨key p p1 h, ?_⟩
  intro x hx
  have h2 := setup_structs_workbuffer p p1 fft_status_success x h
  rw [key _ _ h2, key p p1 h]
  have hx2 : B.vram_footprint ({ p with workbuffersize := x } : hipfft_params).tofft_params =
      B.vram_footprint p.tofft_params := hx
  rw [hx2]

/-- Witness of C11 on the sample object, whose base footprint is 1024: the
member returns 4096 and sets `workbuffersize` to 3072. -/
theorem vram_footprint_value_witness :
    ∃ p1, setup_structs sample_object = Res.ret fft_status_success p1 ∧
      vram_footprint sample_base sample_object =
        Res.ret 4096 { p1 with workbuffersize := 3072 } := by
  obtain ⟨p1, h, _⟩ := setup_structs_dim1 sample_object HIPFFT_C2C HIPFFT_FORWARD 8 1 1 [] []
    rfl rfl rfl rfl
  exact ⟨p1, h, (vram_footprint_value sample_base sample_object p1 h).1⟩

/-- C12: after `free()` the plan is `INVALID_PLAN_HANDLE`; `free()` calls
`hipfftDestroy` exactly once, on the plan, when the plan was valid, and makes
no call and changes nothing when it was already invalid; no field other than
the plan is changed; and `free(); free()` leaves the same state and the same
vendor calls as a single `free()`. -/
theorem free_idempotent (V : Vendor) (B : fft_base) (w : World) :
    (free V B w).obj.plan = B.INVALID_PLAN_HANDLE ∧
    (w.obj.plan ≠ B.INVALID_PLAN_HANDLE →
      (free V B w).trace = w.trace ++ [VendorCall.hipfftDestroy w.obj.plan]) ∧
    (w.obj.plan = B.INVALID_PLAN_HANDLE → free V B w = w) ∧
    (free V B w).obj = { w.obj with plan := B.INVALID_PLAN_HANDLE } ∧
    (free V B w).cerr = w.cerr ∧
    free V B (free V B w) = free V B w := by
  by_cases h : w.obj.plan = B.INVALID_PLAN_HANDLE
  · have hfree : free V B w = w := by
      simp only [free, h, ne_eq, not_true_eq_false, if_false]
    rw [hfree]
    refine ⟨h, fun hne => absurd h hne, fun _ => rfl, ?_, rfl, hfree⟩
    rw [← h]
  · have hfree : free V B w =
        { w with
          obj := { w.obj with plan := B.INVALID_PLAN_HANDLE }
          trace := w.trace ++ [VendorCall.hipfftDestroy w.obj.plan] } := by
      simp only [free, callPlain, callVendor, ne_eq, h, not_false_eq_true, if_true]
    have hagain : free V B
        { w with
          obj := { w.obj with plan := B.INVALID_PLAN_HANDLE }
          trace := w.trace ++ [VendorCall.hipfftDestroy w.obj.plan] } =
        { w with
          obj := { w.obj with plan := B.INVALID_PLAN_HANDLE }
          trace := w.trace ++ [VendorCall.hipfftDestroy w.obj.plan] } := by
      simp only [free, ne_eq, not_true_eq_false, if_false]
    rw [hfree]
    exact ⟨rfl, fun _ => rfl, fun heq => absurd heq h, rfl, rfl, hagain⟩

/-- Witness of C12 on the sample world with the valid plan 7: `free()` makes
the single call `hipfftDestroy(7)` and leaves the invalid plan 0, and a
second `free()` changes nothing. -/
theorem free_idempotent_witness :
    (free sample_vendor sample_base
        { sample_world with obj := { sample_object with plan := 7 } }).trace =
      [VendorCall.hipfftDestroy 7] ∧
    (free sample_vendor sample_base
        { sample_world with obj := { sample_object with plan := 7 } }).obj.plan = 0 ∧
    free sample_vendor sample_base
        (free sample_vendor sample_base
          { sample_world with obj := { sample_object with plan := 7 } }) =
      free sample_vendor sample_base
        { sample_world with obj := { sample_object with plan := 7 } } :=
  ⟨(free_idempotent sample_vendor sample_base
      { sample_world with obj := { sample_object with plan := 7 } }).2.1 (by decide),
    (free_idempotent sample_vendor sample_base
      { sample_world with obj := { sample_object with plan := 7 } }).1,
    (free_idempotent sample_vendor sample_base
      { sample_world with obj := { sample_object with plan := 7 } }).2.2.2.2.2⟩

end HipFFT
